import Mathlib

/-!
# Hardhat-Raffle: deployment scripts as effectful programs

A shallow embedding of `deploy/00-deploy-mocks.js`, `deploy/01-deploy-raffle.js`,
`utils/verify.js` and of the time arithmetic of `test/unit/Raffle.test.js`.

Every script is a function from its surroundings (`Env`: network name, chain id,
`helper-hardhat-config`, environment variables; `World`: the answers of the Hardhat / ethers
runtime and of the contracts) to a `Run`: the list of calls the script issued, in order, and
whether it completed or threw.
-/

namespace HardhatRaffle

/-! ## JavaScript values -/

/-- JavaScript values that flow through the scripts. A `number` is an integer-valued Number. -/
inductive JSValue
  | undefined
  | null
  | bool (b : Bool)
  | number (n : Int)
  | bigint (n : Int)
  | string (s : String)
  deriving DecidableEq, Repr

/-- A thrown JavaScript error object: its `name` and its `message` property. -/
structure JSError where
  name : String
  message : JSValue
  deriving DecidableEq, Repr

/-- The `TypeError` the language itself throws (property access on `undefined`, and the like). -/
def typeError (msg : String) : JSError := ⟨"TypeError", .string msg⟩

/-- A plain object with string keys. -/
abbrev JSObject := List (String × JSValue)

/-- Property read `obj[key]`: `undefined` when the key is absent. -/
def getProp (obj : JSObject) (key : String) : JSValue :=
  (obj.lookup key).getD .undefined

/-- Truthiness of an environment variable: `process.env.X` is `undefined` or a string, and a
string is truthy exactly when it is not empty. -/
def envTruthy : Option String → Bool
  | none => false
  | some s => s != ""

/-! ## The effect trace -/

/-- The value substituted into a template literal: a single value or an array. -/
inductive TemplateValue
  | value (v : JSValue)
  | array (vs : List JSValue)
  deriving DecidableEq, Repr

/-- What is handed to `log` / `console.log`. A template literal is kept unrendered: its literal
pieces and the values substituted between them. -/
inductive LogMessage
  | lit (s : String)
  | template (quasis : List String) (values : List TemplateValue)
  | thrown (err : JSError)
  deriving DecidableEq, Repr

/-- An account handle returned by `ethers.getSigners()`. -/
structure Signer where
  address : JSValue
  deriving DecidableEq, Repr

/-- The options object of `deploy(name, options)`. -/
structure DeployOptions where
  from_ : JSValue
  args : List JSValue
  log : Bool
  deriving DecidableEq, Repr

/-- The calls a script issues to the Hardhat / ethers runtime and to contracts. -/
inductive Event
  /-- Call `ethers.getSigners()` -/
  | getSigners
  /-- Call `getNamedAccounts()` -/
  | getNamedAccounts
  /-- Call `deployments.get(name)` -/
  | deploymentsGet (name : String)
  /-- Call `ethers.getContractAt(abi, address, signer)` -/
  | getContractAt (abi : String) (address : JSValue) (signer : Option Signer)
  /-- Call `VRFCoordinatorV2Mock.method(args)`, on the one contract handle the scripts hold -/
  | contractCall (method : String) (args : List JSValue)
  /-- Call `transactionResponse.wait(confirmations)` -/
  | txWait (confirmations : Nat)
  /-- Call `deploy(name, options)` of hardhat-deploy -/
  | deploy (name : String) (options : DeployOptions)
  /-- Call `log(msg)` of hardhat-deploy -/
  | log (msg : LogMessage)
  /-- Call `console.log(msg)` -/
  | consoleLog (msg : LogMessage)
  /-- Call `run(task, options)` with `address` and `constructorArguments` -/
  | run (task : String) (address : JSValue) (constructorArguments : List JSValue)
  deriving DecidableEq, Repr

/-- The outcome of running a script: the calls issued so far and the value or the exception. -/
structure Run (α : Type) where
  trace : List Event
  result : Except JSError α

namespace Run

/-- Sequencing: an exception stops the script, the calls already issued stay in the trace. -/
protected def bind {α β : Type} (r : Run α) (f : α → Run β) : Run β :=
  match r.result with
  | .error e => ⟨r.trace, .error e⟩
  | .ok a => ⟨r.trace ++ (f a).trace, (f a).result⟩

instance : Monad Run where
  pure a := ⟨[], .ok a⟩
  bind := Run.bind

/-- An awaited call: the call is recorded, then its answer is returned or thrown. -/
def call {α : Type} (e : Event) (answer : Except JSError α) : Run α := ⟨[e], answer⟩

/-- A `throw`. -/
def fail {α : Type} (e : JSError) : Run α := ⟨[], .error e⟩

/-- The statement `try body catch (err) handler`. -/
def tryCatch {α : Type} (body : Run α) (handler : JSError → Run α) : Run α :=
  match body.result with
  | .ok a => ⟨body.trace, .ok a⟩
  | .error e => ⟨body.trace ++ (handler e).trace, (handler e).result⟩

/-- Evaluation of a pure expression that may throw. -/
def lift {α : Type} (x : Except JSError α) : Run α := ⟨[], x⟩

end Run

/-! ## The surroundings of a script -/

/-- What `deployments.get(name)` returns. -/
structure Deployment where
  abi : String
  address : JSValue

/-- One entry of `transactionReceipt.logs`; `args` is absent on a log that was not decoded. -/
structure ReceiptLog where
  args : Option JSObject

/-- What `transactionResponse.wait(n)` returns. -/
structure TransactionReceipt where
  logs : List ReceiptLog

/-- What a state-changing contract call returns. -/
structure TransactionResponse where
  wait : Nat → Except JSError TransactionReceipt

/-- The contract handle `VRFCoordinatorV2Mock`: the answers of the methods the script calls. -/
structure CoordinatorContract where
  getAddress : Except JSError JSValue
  createSubscription : Except JSError TransactionResponse
  fundSubscription : JSValue → JSValue → Except JSError Unit
  addConsumer : JSValue → JSValue → Except JSError Unit

/-- What `deploy(name, options)` returns. -/
structure DeployResult where
  address : JSValue

/-- The answers of the Hardhat / ethers runtime. Every awaited call may reject. -/
structure World where
  getSigners : Except JSError (List Signer)
  getNamedAccounts : Except JSError JSObject
  deploymentsGet : String → Except JSError Deployment
  getContractAt : String → JSValue → Option Signer → Except JSError CoordinatorContract
  deploy : String → DeployOptions → Except JSError DeployResult
  run : String → JSValue → List JSValue → Except JSError Unit
  /-- The Unicode lower-casing of a character outside ASCII, given the text before and after it
  (`String.prototype.toLowerCase`; the table is part of the language runtime). -/
  lowerNonAscii : List Char → Char → List Char → List Char

/-- The static surroundings: the selected network, `helper-hardhat-config` (not part of the
source tree, hence a parameter) and the process environment. -/
structure Env where
  /-- The value of `network.name` -/
  networkName : String
  /-- The value of `network.config.chainId`, `none` when the network configuration has none -/
  chainId : Option Nat
  /-- The list `developmentChains` of helper-hardhat-config -/
  developmentChains : List String
  /-- The table `networkConfig` of helper-hardhat-config: per-chain objects keyed by chain id -/
  networkConfig : List (String × JSObject)
  /-- The value of `process.env.ETHERSCAN_API_KEY` -/
  ETHERSCAN_API_KEY : Option String

/-- The property key a chain id is converted to in `networkConfig[chainId]`. -/
def propertyKey : Option Nat → String
  | none => "undefined"
  | some n => toString n

/-- The expression `developmentChains.includes(network.name)`. -/
def Env.isDevelopment (env : Env) : Bool := env.developmentChains.contains env.networkName

/-- The expression `networkConfig[chainId]`; `none` is `undefined`. -/
def Env.chainConfig (env : Env) : Option JSObject :=
  env.networkConfig.lookup (propertyKey env.chainId)

/-- The expression `networkConfig[chainId][key]`: a `TypeError` when `networkConfig[chainId]`
is `undefined`. -/
def Env.configValue (env : Env) (key : String) : Except JSError JSValue :=
  match env.chainConfig with
  | none => .error (typeError "Cannot read properties of undefined")
  | some entry => .ok (getProp entry key)

/-! ## Strings -/

/-- The method `String.prototype.toLowerCase` on the characters of a string, `before` being the
text already passed. An ASCII character is mapped by `Char.toLower`; any other character by the
Unicode table of the runtime. -/
def toLowerCaseFrom (tbl : List Char → Char → List Char → List Char) :
    List Char → List Char → List Char
  | _, [] => []
  | before, c :: rest =>
    (if c.val < 128 then [c.toLower] else tbl before c rest)
      ++ toLowerCaseFrom tbl (before ++ [c]) rest

/-- The method `String.prototype.toLowerCase`. -/
def toLowerCase (tbl : List Char → Char → List Char → List Char) (s : String) : String :=
  ⟨toLowerCaseFrom tbl [] s.data⟩

/-- Whether `t` is an initial segment of `s`. -/
def startsWith : List Char → List Char → Bool
  | _, [] => true
  | [], _ :: _ => false
  | c :: s, d :: t => c == d && startsWith s t

/-- Substring search on character lists. -/
def includesChars : List Char → List Char → Bool
  | [], t => startsWith [] t
  | c :: s, t => startsWith (c :: s) t || includesChars s t

/-- The method `String.prototype.includes`. -/
def includes (s search : String) : Bool := includesChars s.data search.data

/-- The value of a string of decimal digits. -/
def digitsValue (cs : List Char) : Nat :=
  cs.foldl (fun acc c => 10 * acc + (c.toNat - 48)) 0

/-- The function `parseUnits(value, decimals)` of the ethers library (the library is not part of
the source tree): `value` must match `-?[0-9]*\.?[0-9]*` with at least one digit, its fraction
is padded with zeros to `decimals` places, and digits beyond that must all be zero. -/
def parseUnits (value : String) (decimals : Nat) : Except JSError JSValue :=
  let cs := value.data
  let negative := cs.head? == some '-'
  let body := if negative then cs.drop 1 else cs
  let whole := body.takeWhile Char.isDigit
  let afterWhole := body.dropWhile Char.isDigit
  let frac := if afterWhole.head? == some '.' then afterWhole.drop 1 else afterWhole
  if frac.all Char.isDigit && decide (0 < whole.length + frac.length)
      && (frac.drop decimals).all (fun c => c == '0') then
    let padded := (frac ++ List.replicate (decimals - frac.length) '0').take decimals
    let v : Int := digitsValue (whole ++ padded)
    .ok (.bigint (if negative then -v else v))
  else
    .error ⟨"TypeError", .string "invalid FixedNumber string value"⟩

/-- The function `ethers.parseEther(ether)`, which is `parseUnits(ether, 18)`. -/
def parseEther (ether : String) : Except JSError JSValue := parseUnits ether 18

/-! ## utils/verify.js -/

/-- The condition `err.message.toLowerCase().includes("already verified")` of the catch block:
a `TypeError` when `err.message` is not a string. -/
def messageSaysAlreadyVerified (w : World) (err : JSError) : Except JSError Bool :=
  match err.message with
  | .string m => .ok (includes (toLowerCase w.lowerNonAscii m) "already verified")
  | .undefined => .error (typeError "Cannot read properties of undefined")
  | .null => .error (typeError "Cannot read properties of null")
  | _ => .error (typeError "err.message.toLowerCase is not a function")

/-- The function `verify(contractAddress, args)` of utils/verify.js. -/
def verify (w : World) (contractAddress : JSValue) (args : List JSValue) : Run Unit := do
  Run.call (.consoleLog (.template ["Verifying contract : ", ""] [.value contractAddress]))
    (.ok ())
  Run.tryCatch
    (Run.call (.run "verify:verify" contractAddress args)
      (w.run "verify:verify" contractAddress args))
    (fun err => do
      if (← Run.lift (messageSaysAlreadyVerified w err)) then
        Run.call (.consoleLog (.lit "Already verified")) (.ok ())
      else
        Run.call (.consoleLog (.thrown err)) (.ok ()))

/-! ## deploy/00-deploy-mocks.js -/

/-- The constant `BASE_FEE = ethers.parseEther("0.25")`. -/
def BASE_FEE : Except JSError JSValue := parseEther "0.25"

/-- The constant `GAS_PRICE_LINK = 1e9`. -/
def GAS_PRICE_LINK : JSValue := .number 1000000000

/-- The function exported by deploy/00-deploy-mocks.js. The module constant `BASE_FEE` is
evaluated first: if that threw, the module would not load and nothing would run. -/
def mockDeployer (env : Env) (w : World) : Run Unit := do
  let BASE_FEE ← Run.lift BASE_FEE
  let accounts ← Run.call .getNamedAccounts w.getNamedAccounts
  let deployer := getProp accounts "deployer"
  let args := [BASE_FEE, GAS_PRICE_LINK]
  if env.isDevelopment then
    Run.call (.log (.lit "Local network detected! Deploying mocks...")) (.ok ())
    let opts : DeployOptions := ⟨deployer, args, true⟩
    let _mockVRFCoordinator ←
      Run.call (.deploy "VRFCoordinatorV2Mock" opts) (w.deploy "VRFCoordinatorV2Mock" opts)
    Run.call (.log (.lit "Mocks Deployed !")) (.ok ())
    Run.call
      (.log (.lit "----------------------------------------------------------------")) (.ok ())

/-! ## deploy/01-deploy-raffle.js -/

/-- The constant `VRF_SUB_FUND_AMOUNT = ethers.parseEther("20")`. -/
def VRF_SUB_FUND_AMOUNT : Except JSError JSValue := parseEther "20"

/-- What lines 22-59 assign: `vrfCoordinatorV2Address`, `subscriptionId` and
`VRFCoordinatorV2Mock` (`none` while the variable is still `undefined`). -/
structure Subscription where
  vrfCoordinatorV2Address : JSValue
  subscriptionId : JSValue
  VRFCoordinatorV2Mock : Option CoordinatorContract

/-- Lines 22-59 of deploy/01-deploy-raffle.js: the `if (developmentChains.includes(...))`
statement that settles the coordinator address and the subscription id. -/
def resolveSubscription (env : Env) (w : World) (fundAmount : JSValue)
    (deployer : Option Signer) : Run Subscription :=
  if env.isDevelopment then do
    let vrfCoordinatorV2MockDeployment ←
      Run.call (.deploymentsGet "VRFCoordinatorV2Mock") (w.deploymentsGet "VRFCoordinatorV2Mock")
    let abi := vrfCoordinatorV2MockDeployment.abi
    let address := vrfCoordinatorV2MockDeployment.address
    let VRFCoordinatorV2Mock ←
      Run.call (.getContractAt abi address deployer) (w.getContractAt abi address deployer)
    let vrfCoordinatorV2Address ←
      Run.call (.contractCall "getAddress" []) VRFCoordinatorV2Mock.getAddress
    let transactionResponse ←
      Run.call (.contractCall "createSubscription" []) VRFCoordinatorV2Mock.createSubscription
    let transactionReceipt ← Run.call (.txWait 1) (transactionResponse.wait 1)
    let log0 ← match transactionReceipt.logs.head? with
      | some l => pure l
      | none => Run.fail (typeError "Cannot read properties of undefined (reading args)")
    let logArgs ← match log0.args with
      | some a => pure a
      | none => Run.fail (typeError "Cannot read properties of undefined (reading subId)")
    let subscriptionId := getProp logArgs "subId"
    Run.call (.contractCall "fundSubscription" [subscriptionId, fundAmount])
      (VRFCoordinatorV2Mock.fundSubscription subscriptionId fundAmount)
    pure ⟨vrfCoordinatorV2Address, subscriptionId, some VRFCoordinatorV2Mock⟩
  else do
    let vrfCoordinatorV2Address ← Run.lift (env.configValue "vrfCoordinatorV2")
    let subscriptionId ← Run.lift (env.configValue "subscriptionId")
    pure ⟨vrfCoordinatorV2Address, subscriptionId, none⟩

/-- Lines 79-94 of deploy/01-deploy-raffle.js: what follows the deploy of `Raffle`, namely the
registration as consumer, the verification block and the closing separator. -/
def finishDeployment (env : Env) (w : World) (sub : Subscription) (args : List JSValue)
    (raffle : DeployResult) : Run Unit := do
  if env.isDevelopment then
    match sub.VRFCoordinatorV2Mock with
    | some mock =>
      Run.call (.contractCall "addConsumer" [sub.subscriptionId, raffle.address])
        (mock.addConsumer sub.subscriptionId raffle.address)
    | none => Run.fail (typeError "Cannot read properties of undefined (reading addConsumer)")
  if !env.isDevelopment && envTruthy env.ETHERSCAN_API_KEY then
    Run.call
      (.log (.template ["Verifying contract ", " ", ""] [.value raffle.address, .array args]))
      (.ok ())
    verify w raffle.address args
    Run.call (.log (.lit "Verified contract")) (.ok ())
  Run.call (.log (.lit "---------------------------------------------------------------"))
    (.ok ())

/-- The function exported by deploy/01-deploy-raffle.js. The module constant
`VRF_SUB_FUND_AMOUNT` is evaluated first: if that threw, the module would not load and nothing
would run. -/
def raffleDeployer (env : Env) (w : World) : Run Unit := do
  let VRF_SUB_FUND_AMOUNT ← Run.lift VRF_SUB_FUND_AMOUNT
  let signers ← Run.call .getSigners w.getSigners
  let deployer := signers.head?
  let sub ← resolveSubscription env w VRF_SUB_FUND_AMOUNT deployer
  let entranceFee ← Run.lift (env.configValue "entranceFee")
  let gasLane ← Run.lift (env.configValue "gasLane")
  let callbackGasLimit ← Run.lift (env.configValue "callbackGasLimit")
  let interval ← Run.lift (env.configValue "interval")
  let args :=
    [sub.vrfCoordinatorV2Address, entranceFee, gasLane, sub.subscriptionId, callbackGasLimit,
      interval]
  let deployerAddress ← match deployer with
    | some d => pure d.address
    | none => Run.fail (typeError "Cannot read properties of undefined (reading address)")
  let opts : DeployOptions := ⟨deployerAddress, args, true⟩
  let raffle ← Run.call (.deploy "Raffle" opts) (w.deploy "Raffle" opts)
  finishDeployment env w sub args raffle

/-! ## test/unit/Raffle.test.js: the amounts given to `evm_increaseTime`

`interval` is the BigInt returned by `raffle.getInterval()`, a `uint256`, hence a natural
number. A finite Number with an integer value is represented by that integer; `none` stands for
a Number that is not finite. -/

/-- The method `BigInt.prototype.toString()` on a non-negative BigInt: its decimal digits. -/
def bigintToString (n : Nat) : String := Nat.repr n

/-- The exponent of the spacing between neighbouring doubles at `n`: the least `e` such that
`n < 2 ^ (53 + e)`, for `n < 2 ^ 1024`. -/
def ulpExp : Nat → Nat → Nat
  | 0, _ => 0
  | fuel + 1, n => if n < 2 ^ 53 then 0 else 1 + ulpExp fuel (n / 2)

/-- The double nearest to the natural number `n`, ties going to the even significand (the
rounding of IEEE 754 binary64, which has 53 significant bits), for `n < 2 ^ 1024`. -/
def roundToDouble (n : Nat) : Nat :=
  let e := ulpExp 1024 n
  let q := n / 2 ^ e
  let r := n % 2 ^ e
  if 2 * r < 2 ^ e ∨ (2 * r = 2 ^ e ∧ q % 2 = 0) then q * 2 ^ e else (q + 1) * 2 ^ e

/-- The Number value of an integer: its nearest double, or `none` (an infinity) from
`2 ^ 1024 - 2 ^ 970` on. -/
def integerToNumber (z : Int) : Option Int :=
  if z.natAbs < 2 ^ 1024 - 2 ^ 970 then some (z.sign * roundToDouble z.natAbs) else none

/-- The conversion of a string to Number, for the strings `BigInt.prototype.toString()` yields:
a string of decimal digits is its value rounded to the nearest double. Other strings (signs,
exponents, blanks, text) do not occur here and are not modelled. -/
def stringToNumber (s : String) : Option Int :=
  if s.data.all Char.isDigit then integerToNumber (digitsValue s.data) else none

/-- The operator `-` on two finite Numbers with integer values: the exact difference, rounded. -/
def numberSub (a b : Int) : Option Int := integerToNumber (a - b)

/-- The expression `interval.toString() + 1` of the tests that need the interval to have
passed: the left operand is a string, so `+` appends the string "1". -/
def increaseTimePast (interval : Nat) : String := bigintToString interval ++ "1"

/-- The expression `interval.toString() - 30` of the test that needs the interval not to have
passed: `-` converts the string to Number and subtracts. -/
def increaseTimeShort (interval : Nat) : Option Int :=
  (stringToNumber (bigintToString interval)).bind (fun x => numberSub x 30)

/-! ## test/unit/Raffle.test.js and test/staging/Raffle.staging.test.js: the suite guards

Each test file is one conditional expression statement. Loading the file registers a suite with
mocha exactly when the branch taken is a call of `describe`; the other branch is the expression
`describe.skip`, which reads a property and calls nothing. -/

/-- A `describe` nested in the callback of a top-level suite: its title and the titles of its
`it` tests. -/
structure NestedSuite where
  title : String
  tests : List String
  deriving DecidableEq, Repr

/-- A top-level call `describe(title, callback)`: the title and what the callback declares. -/
structure Suite where
  title : String
  suites : List NestedSuite
  deriving DecidableEq, Repr

/-- The two forms the branches of the conditional take. -/
inductive SuiteExpr
  /-- The expression `describe.skip`: the function is read, not called -/
  | describeSkip
  /-- The call `describe(title, callback)` -/
  | describeCall (suite : Suite)
  deriving DecidableEq, Repr

/-- The suites mocha holds after the expression has been evaluated. -/
def SuiteExpr.registered : SuiteExpr → List Suite
  | .describeSkip => []
  | .describeCall suite => [suite]

/-- The suite declared by test/unit/Raffle.test.js (lines 8-215). -/
def unitSuite : Suite :=
  ⟨"Raffle",
    [⟨"constructor", ["initialized the contract correctly"]⟩,
      ⟨"enterRaffle",
        ["reverts when you don\x27t pay enough", "records players when they enter",
          "emits an event when they enter",
          "doesn\x27t allow entrance when raffle is calculating"]⟩,
      ⟨"checkUpkeep()",
        ["returns false if people haven\x27t sent any ETH",
          "returns false if raffle isn\x27t open",
          "returns false if enough time hasn\x27t passed",
          "returns true if enough time has passed, has players and has ETH and is open"]⟩,
      ⟨"performUpkeep",
        ["it can only run if checkupkeep is true", "reverts if checkUpKeep is not needed",
          "emits an event when random winner is requested",
          "changes raffle state to calculating"]⟩,
      ⟨"fulfillRandomWords",
        ["can only be called after performUpkeep",
          "picks a winner, resets the lottery and sends money"]⟩]⟩

/-- The suite declared by test/staging/Raffle.staging.test.js (lines 7-59). -/
def stagingSuite : Suite :=
  ⟨"Raffle",
    [⟨"fulfillRandomWords",
      ["works with Chainlink keepers and Chainlink VRF, we get a random winner"]⟩]⟩

/-- The statement of test/unit/Raffle.test.js (lines 6-215):
`!developmentChains.includes(network.name) ? describe.skip : describe("Raffle", ...)`. -/
def unitTestFile (env : Env) : SuiteExpr :=
  if !env.isDevelopment then .describeSkip else .describeCall unitSuite

/-- The statement of test/staging/Raffle.staging.test.js (lines 6-60):
`!developmentChains.includes(network.name) ? describe("Raffle", ...) : describe.skip`. -/
def stagingTestFile (env : Env) : SuiteExpr :=
  if !env.isDevelopment then .describeCall stagingSuite else .describeSkip

/-! ## Reading a trace -/

/-- Whether the call is a `deploy`. -/
def Event.isDeploy : Event → Bool
  | .deploy _ _ => true
  | _ => false

/-- Whether the call writes a log line (`log` or `console.log`). -/
def Event.isLog : Event → Bool
  | .log _ => true
  | .consoleLog _ => true
  | _ => false

/-- Whether the call runs a Hardhat task. -/
def Event.isRun : Event → Bool
  | .run _ _ _ => true
  | _ => false

/-- Whether the call is the contract method `method`. -/
def Event.isContractCall (method : String) : Event → Bool
  | .contractCall m _ => m == method
  | _ => false

/-- The first line written by `verify`. -/
def verifyingLine (contractAddress : JSValue) : Event :=
  .consoleLog (.template ["Verifying contract : ", ""] [.value contractAddress])

/-- The amount `VRF_SUB_FUND_AMOUNT`: 20 ether in wei. -/
def fundAmount : JSValue := .bigint 20000000000000000000

/-- The closing separator line. -/
def separatorLine : Event :=
  .log (.lit "---------------------------------------------------------------")

/-- The constructor arguments, in the order of the array `args` of line 64. -/
def constructorArgs (coordinator subscriptionId : JSValue) (entry : JSObject) : List JSValue :=
  [coordinator, getProp entry "entranceFee", getProp entry "gasLane", subscriptionId,
    getProp entry "callbackGasLimit", getProp entry "interval"]

/-- The line written before verification. -/
def announceLine (address : JSValue) (args : List JSValue) : Event :=
  .log (.template ["Verifying contract ", " ", ""] [.value address, .array args])

/-! ## Sample surroundings

A configuration and two sets of answers on which the scripts can be evaluated: the local
`hardhat` network with the mock coordinator, and the public `sepolia` network. -/

/-- A sample `networkConfig` with an entry for chain 31337 and one for chain 11155111. -/
def sampleNetworkConfig : List (String × JSObject) :=
  [("31337",
      [("name", .string "hardhat"), ("entranceFee", .bigint 10000000000000000),
        ("gasLane", .string "0x474e34a077df58807dbe9c96d3c009b23b3c6d0cce433e59bbf5b34f823bc56c"),
        ("callbackGasLimit", .string "500000"), ("interval", .string "30")]),
    ("11155111",
      [("name", .string "sepolia"),
        ("vrfCoordinatorV2", .string "0x8103B0A8A00be2DDC778e6e7eaa21791Cd364625"),
        ("entranceFee", .bigint 10000000000000000),
        ("gasLane", .string "0x474e34a077df58807dbe9c96d3c009b23b3c6d0cce433e59bbf5b34f823bc56c"),
        ("subscriptionId", .string "6926"),
        ("callbackGasLimit", .string "500000"), ("interval", .string "30")])]

/-- The local `hardhat` network, a development chain. -/
def hardhatEnv : Env :=
  ⟨"hardhat", some 31337, ["hardhat", "localhost"], sampleNetworkConfig, none⟩

/-- The public `sepolia` network with an explorer key set. -/
def sepoliaEnv : Env :=
  ⟨"sepolia", some 11155111, ["hardhat", "localhost"], sampleNetworkConfig, some "ABC123"⟩

/-- A public network whose chain id has no entry in `networkConfig`. -/
def unlistedEnv : Env :=
  ⟨"goerli", some 5, ["hardhat", "localhost"], sampleNetworkConfig, some "ABC123"⟩

/-- A development chain whose chain id has no entry in `networkConfig`. -/
def unlistedLocalEnv : Env :=
  ⟨"localhost", some 1337, ["hardhat", "localhost"], sampleNetworkConfig, none⟩

/-- The first account of the sample signers. -/
def sampleDeployer : Signer := ⟨.string "0xf39Fd6e51aad88F6F4ce6aB8827279cffFb92266"⟩

/-- The arguments of the `SubscriptionCreated` log of the sample receipt. -/
def sampleLogArgs : JSObject :=
  [("subId", .bigint 1), ("owner", .string "0xf39Fd6e51aad88F6F4ce6aB8827279cffFb92266")]

/-- The receipt of the sample `createSubscription` transaction. -/
def sampleReceipt : TransactionReceipt := ⟨[⟨some sampleLogArgs⟩]⟩

/-- The response of the sample `createSubscription` transaction. -/
def sampleTransaction : TransactionResponse := ⟨fun _ => .ok sampleReceipt⟩

/-- A mock coordinator whose every method answers. -/
def sampleMock : CoordinatorContract where
  getAddress := .ok (.string "0x5FbDB2315678afecb367f032d93F642f64180aa3")
  createSubscription := .ok sampleTransaction
  fundSubscription := fun _ _ => .ok ()
  addConsumer := fun _ _ => .ok ()

/-- The deployment record of the sample mock coordinator. -/
def sampleMockDeployment : Deployment :=
  ⟨"VRFCoordinatorV2Mock.abi", .string "0x5FbDB2315678afecb367f032d93F642f64180aa3"⟩

/-- What the sample `deploy` returns. -/
def sampleRaffle : DeployResult := ⟨.string "0xe7f1725E7734CE288F8367e1Bb143E90bb3F0512"⟩

/-- A runtime in which every call answers, except that the explorer reports the contract as
verified already. -/
def sampleWorld : World where
  getSigners := .ok [sampleDeployer, ⟨.string "0x70997970C51812dc3A010C7d01b50e0d17dc79C8"⟩]
  getNamedAccounts :=
    .ok [("deployer", .string "0xf39Fd6e51aad88F6F4ce6aB8827279cffFb92266"),
      ("player", .string "0x70997970C51812dc3A010C7d01b50e0d17dc79C8")]
  deploymentsGet := fun _ => .ok sampleMockDeployment
  getContractAt := fun _ _ _ => .ok sampleMock
  deploy := fun _ _ => .ok sampleRaffle
  run := fun _ _ _ => .error ⟨"NomicLabsHardhatPluginError", .string "Contract source code ALREADY Verified"⟩
  lowerNonAscii := fun _ c _ => [c]

/-- The sample runtime with an explorer that fails for another reason. -/
def failingExplorerWorld : World :=
  { sampleWorld with
    run := fun _ _ _ => .error ⟨"Error", .string "The Etherscan API responded with a failure status."⟩ }

/-- A runtime on a public network: no mock coordinator is deployed, so `deployments.get`
rejects, and the explorer reports the contract as verified already. -/
def publicWorld : World :=
  { sampleWorld with
    deploymentsGet := fun _ =>
      .error ⟨"Error", .string "No deployment found for: VRFCoordinatorV2Mock"⟩ }

/-! ## Laws of sequencing -/

namespace Run

@[simp] theorem pure_trace {α : Type} (a : α) : (pure a : Run α).trace = [] := rfl

@[simp] theorem pure_result {α : Type} (a : α) : (pure a : Run α).result = .ok a := rfl

@[simp] theorem pure_bind {α β : Type} (a : α) (f : α → Run β) : (pure a : Run α) >>= f = f a := by
  show Run.bind _ f = f a
  simp [Run.bind]

@[simp] theorem lift_ok_bind {α β : Type} (a : α) (f : α → Run β) :
    Run.lift (.ok a) >>= f = f a := by
  show Run.bind _ f = f a
  simp [Run.bind, Run.lift]

@[simp] theorem lift_error_bind {α β : Type} (e : JSError) (f : α → Run β) :
    Run.lift (.error e) >>= f = ⟨[], .error e⟩ := rfl

@[simp] theorem fail_bind {α β : Type} (e : JSError) (f : α → Run β) :
    (Run.fail e : Run α) >>= f = ⟨[], .error e⟩ := rfl

@[simp] theorem call_ok_bind {α β : Type} (ev : Event) (a : α) (f : α → Run β) :
    Run.call ev (.ok a) >>= f = ⟨ev :: (f a).trace, (f a).result⟩ := rfl

@[simp] theorem call_error_bind {α β : Type} (ev : Event) (e : JSError) (f : α → Run β) :
    (Run.call ev (.error e) : Run α) >>= f = ⟨[ev], .error e⟩ := rfl

@[simp] theorem mk_ok_bind {α β : Type} (t : List Event) (a : α) (f : α → Run β) :
    (⟨t, .ok a⟩ : Run α) >>= f = ⟨t ++ (f a).trace, (f a).result⟩ := rfl

@[simp] theorem mk_error_bind {α β : Type} (t : List Event) (e : JSError) (f : α → Run β) :
    (⟨t, .error e⟩ : Run α) >>= f = ⟨t, .error e⟩ := rfl

@[simp] theorem call_trace {α : Type} (ev : Event) (x : Except JSError α) :
    (Run.call ev x).trace = [ev] := rfl

@[simp] theorem call_result {α : Type} (ev : Event) (x : Except JSError α) :
    (Run.call ev x).result = x := rfl

theorem bind_of_ok {α β : Type} {r : Run α} {a : α} (h : r.result = .ok a) (f : α → Run β) :
    r >>= f = ⟨r.trace ++ (f a).trace, (f a).result⟩ := by
  show Run.bind r f = _
  simp [Run.bind, h]

theorem bind_of_error {α β : Type} {r : Run α} {e : JSError} (h : r.result = .error e)
    (f : α → Run β) : r >>= f = ⟨r.trace, .error e⟩ := by
  show Run.bind r f = _
  simp [Run.bind, h]

end Run

/-! ## The constants -/

theorem BASE_FEE_eq : BASE_FEE = .ok (.bigint 250000000000000000) := rfl

theorem VRF_SUB_FUND_AMOUNT_eq : VRF_SUB_FUND_AMOUNT = .ok (.bigint 20000000000000000000) := rfl

/-! ## utils/verify.js -/

theorem toLower_val_lt {c : Char} (h : c.toLower.val < 128) : c.val < 128 := by
  unfold Char.toLower at h
  simp only [Char.toNat] at h
  split at h
  · rename_i hc
    have h90 : c.val.toNat ≤ 90 := hc.2
    show c.val.toNat < 128
    omega
  · exact h

theorem toLowerCaseFrom_append_ascii (tbl : List Char → Char → List Char → List Char)
    (s : List Char) (hs : ∀ c ∈ s, c.val < 128) (before rest : List Char) :
    toLowerCaseFrom tbl before (s ++ rest)
      = s.map Char.toLower ++ toLowerCaseFrom tbl (before ++ s) rest := by
  induction s generalizing before with
  | nil => simp
  | cons c s ih =>
    have hc : c.val < 128 := hs c (List.mem_cons_self c s)
    have hrest : ∀ d ∈ s, d.val < 128 := fun d hd => hs d (List.mem_cons_of_mem c hd)
    simp [toLowerCaseFrom, hc, ih hrest]

theorem toLowerCaseFrom_append (tbl : List Char → Char → List Char → List Char)
    (pre : List Char) (before rest : List Char) :
    ∃ p, toLowerCaseFrom tbl before (pre ++ rest)
      = p ++ toLowerCaseFrom tbl (before ++ pre) rest := by
  induction pre generalizing before with
  | nil => exact ⟨[], by simp⟩
  | cons c pre ih =>
    obtain ⟨p, hp⟩ := ih (before ++ [c])
    refine ⟨(if c.val < 128 then [c.toLower] else tbl before c (pre ++ rest)) ++ p, ?_⟩
    simp [toLowerCaseFrom, hp]

theorem startsWith_append (t q : List Char) : startsWith (t ++ q) t = true := by
  induction t with
  | nil => cases q <;> rfl
  | cons c t ih => simp [startsWith, ih]

theorem includesChars_of_startsWith {s t : List Char} (h : startsWith s t = true) :
    includesChars s t = true := by
  cases s with
  | nil => simpa [includesChars] using h
  | cons c s => simp [includesChars, h]

theorem includesChars_append_left (p : List Char) {s t : List Char}
    (h : includesChars s t = true) : includesChars (p ++ s) t = true := by
  induction p with
  | nil => simpa using h
  | cons c p ih => simp [includesChars, ih]

/-- A text that spells the needle, up to the case of ASCII letters, somewhere inside is found
by `toLowerCase().includes(needle)`. -/
theorem includes_toLowerCase (tbl : List Char → Char → List Char → List Char) (m needle : String)
    (pre s post : List Char) (hsplit : m.data = pre ++ s ++ post)
    (hcase : s.map Char.toLower = needle.data) (hascii : ∀ c ∈ needle.data, c.val < 128) :
    includes (toLowerCase tbl m) needle = true := by
  have hs : ∀ c ∈ s, c.val < 128 := by
    intro c hc
    apply toLower_val_lt
    apply hascii
    rw [← hcase]
    exact List.mem_map_of_mem _ hc
  obtain ⟨p, hp⟩ := toLowerCaseFrom_append tbl pre [] (s ++ post)
  have h2 := toLowerCaseFrom_append_ascii tbl s hs ([] ++ pre) post
  unfold includes toLowerCase
  simp only [hsplit, List.append_assoc, hp, h2, hcase]
  apply includesChars_append_left
  apply includesChars_of_startsWith
  exact startsWith_append _ _

/-- When the task completes, `verify` writes its first line, runs the task and returns. -/
theorem verify_of_run_ok (w : World) (a : JSValue) (args : List JSValue)
    (hrun : w.run "verify:verify" a args = .ok ()) :
    verify w a args = ⟨[verifyingLine a, .run "verify:verify" a args], .ok ()⟩ := by
  simp [verify, Run.tryCatch, hrun, verifyingLine]

/-- When the task throws an error whose message is a string, `verify` catches it, writes one
more line and returns. -/
theorem verify_of_run_error (w : World) (a : JSValue) (args : List JSValue) (err : JSError)
    (m : String) (hrun : w.run "verify:verify" a args = .error err)
    (hmsg : err.message = .string m) :
    verify w a args =
      ⟨[verifyingLine a, .run "verify:verify" a args,
          .consoleLog
            (if includes (toLowerCase w.lowerNonAscii m) "already verified" = true
              then .lit "Already verified" else .thrown err)],
        .ok ()⟩ := by
  by_cases hinc : includes (toLowerCase w.lowerNonAscii m) "already verified" = true
  · simp [verify, Run.tryCatch, hrun, verifyingLine, messageSaysAlreadyVerified, hmsg, hinc]
  · simp [verify, Run.tryCatch, hrun, verifyingLine, messageSaysAlreadyVerified, hmsg, hinc]

/-- Whatever the task does, `verify` runs it exactly once, after its first line, and anything
after that is a `console.log`. -/
theorem verify_trace (w : World) (a : JSValue) (args : List JSValue) :
    ∃ tail, (verify w a args).trace = verifyingLine a :: .run "verify:verify" a args :: tail ∧
      ∀ e ∈ tail, ∃ msg, e = Event.consoleLog msg := by
  cases hrun : w.run "verify:verify" a args with
  | ok u => exact ⟨[], by rw [verify_of_run_ok w a args hrun], by simp⟩
  | error err =>
    cases hm : messageSaysAlreadyVerified w err with
    | error e2 =>
      exact ⟨[], by simp [verify, Run.tryCatch, hrun, verifyingLine, hm], by simp⟩
    | ok b =>
      cases b with
      | true =>
        exact ⟨[.consoleLog (.lit "Already verified")],
          by simp [verify, Run.tryCatch, hrun, verifyingLine, hm], by simp⟩
      | false =>
        exact ⟨[.consoleLog (.thrown err)],
          by simp [verify, Run.tryCatch, hrun, verifyingLine, hm], by simp⟩

/-- C7. An "already verified" error is swallowed. For every contract address, argument list and
error thrown by the task `verify:verify` whose message is a string that contains
"already verified" written in any mix of upper and lower case letters (the message splits as
`pre ++ s ++ post` where `s` lower-cases to "already verified"), `verify` completes normally and
its trace is: the line "Verifying contract : ...", the one run of the task, and the line
"Already verified". -/
theorem verify_swallows_already_verified (w : World) (contractAddress : JSValue)
    (args : List JSValue) (err : JSError) (m : String) (pre s post : List Char)
    (hrun : w.run "verify:verify" contractAddress args = .error err)
    (hmsg : err.message = .string m)
    (hsplit : m.data = pre ++ s ++ post)
    (hcase : s.map Char.toLower = "already verified".data) :
    (verify w contractAddress args).result = .ok () ∧
      (verify w contractAddress args).trace =
        [.consoleLog (.template ["Verifying contract : ", ""] [.value contractAddress]),
          .run "verify:verify" contractAddress args,
          .consoleLog (.lit "Already verified")] := by
  have hinc : includes (toLowerCase w.lowerNonAscii m) "already verified" = true :=
    includes_toLowerCase w.lowerNonAscii m "already verified" pre s post hsplit hcase
      (by decide)
  rw [verify_of_run_error w contractAddress args err m hrun hmsg]
  simp [hinc, verifyingLine]

/-! ## deploy/00-deploy-mocks.js -/

/-- The run of the mock deployer on a network that is not a development chain. -/
theorem mockDeployer_other (env : Env) (w : World) (h : env.isDevelopment = false) :
    (mockDeployer env w).trace = [Event.getNamedAccounts] := by
  unfold mockDeployer
  rw [BASE_FEE_eq]
  cases hacc : w.getNamedAccounts <;> simp [h]

/-- The run of the mock deployer on a development chain. -/
theorem mockDeployer_development (env : Env) (w : World) (accounts : JSObject)
    (h : env.isDevelopment = true) (hacc : w.getNamedAccounts = .ok accounts) :
    ∃ tail, (∀ e ∈ tail, e.isDeploy = false) ∧
      (mockDeployer env w).trace =
        [Event.getNamedAccounts, .log (.lit "Local network detected! Deploying mocks..."),
          .deploy "VRFCoordinatorV2Mock"
            ⟨getProp accounts "deployer", [.bigint 250000000000000000, .number 1000000000],
              true⟩] ++ tail := by
  unfold mockDeployer
  rw [BASE_FEE_eq]
  cases hd : w.deploy "VRFCoordinatorV2Mock"
      ⟨getProp accounts "deployer", [.bigint 250000000000000000, .number 1000000000], true⟩ with
  | error e => exact ⟨[], by simp, by simp [h, hacc, hd, GAS_PRICE_LINK]⟩
  | ok r =>
    exact ⟨[.log (.lit "Mocks Deployed !"),
      .log (.lit "----------------------------------------------------------------")],
      by simp [Event.isDeploy], by simp [h, hacc, hd, GAS_PRICE_LINK]⟩

/-- C5. The mock deployer deploys `VRFCoordinatorV2Mock` exactly on the development chains.
Provided `getNamedAccounts()` answers, a deploy is issued if and only if `network.name` is in
`developmentChains`; on a development chain the deploys issued are exactly one, of
`"VRFCoordinatorV2Mock"`, from the named account `deployer`, with the argument list
`[250000000000000000, 1000000000]` (`BASE_FEE`, the flat fee, then `GAS_PRICE_LINK`, the cost
per gas); on any other network the trace holds neither a deploy nor a log. -/
theorem mockDeployer_deploys_iff_development (env : Env) (w : World) (accounts : JSObject)
    (hacc : w.getNamedAccounts = .ok accounts) :
    ((∃ e ∈ (mockDeployer env w).trace, e.isDeploy = true) ↔
        env.networkName ∈ env.developmentChains) ∧
      (env.networkName ∈ env.developmentChains →
        (mockDeployer env w).trace.filter Event.isDeploy =
          [.deploy "VRFCoordinatorV2Mock"
            ⟨getProp accounts "deployer",
              [.bigint 250000000000000000, .number 1000000000], true⟩]) ∧
      (env.networkName ∉ env.developmentChains →
        ∀ e ∈ (mockDeployer env w).trace, e.isDeploy = false ∧ e.isLog = false) := by
  have hmem : env.isDevelopment = true ↔ env.networkName ∈ env.developmentChains := by
    simp [Env.isDevelopment]
  cases hdev : env.isDevelopment with
  | false =>
    have hnot : env.networkName ∉ env.developmentChains := by
      rw [← hmem, hdev]; simp
    have ht := mockDeployer_other env w hdev
    refine ⟨?_, fun hin => absurd hin hnot, fun _ e he => ?_⟩
    · rw [ht]
      simp [Event.isDeploy, hnot]
    · rw [ht] at he
      simp at he
      subst he
      exact ⟨rfl, rfl⟩
  | true =>
    have hin : env.networkName ∈ env.developmentChains := hmem.mp hdev
    obtain ⟨tail, htail, ht⟩ := mockDeployer_development env w accounts hdev hacc
    have hfilter : tail.filter Event.isDeploy = [] := by
      rw [List.filter_eq_nil_iff]
      intro e he
      simp [htail e he]
    refine ⟨?_, fun _ => ?_, fun hnot => absurd hin hnot⟩
    · rw [ht]
      simp [Event.isDeploy, hin]
    · rw [ht, List.filter_append, hfilter]
      simp [Event.isDeploy, List.filter]

/-! ## deploy/01-deploy-raffle.js -/

/-- Off the development chains, lines 56 and 58 read the configuration and call nothing. -/
theorem resolveSubscription_other (env : Env) (w : World) (fund : JSValue) (d : Option Signer)
    (entry : JSObject) (hdev : env.isDevelopment = false) (hcfg : env.chainConfig = some entry) :
    resolveSubscription env w fund d =
      ⟨[], .ok ⟨getProp entry "vrfCoordinatorV2", getProp entry "subscriptionId", none⟩⟩ := by
  simp [resolveSubscription, hdev, Env.configValue, hcfg]
  rfl

/-- Off the development chains, without a configuration entry, line 56 throws at once. -/
theorem resolveSubscription_other_missing (env : Env) (w : World) (fund : JSValue)
    (d : Option Signer) (hdev : env.isDevelopment = false) (hcfg : env.chainConfig = none) :
    resolveSubscription env w fund d =
      ⟨[], .error (typeError "Cannot read properties of undefined")⟩ := by
  simp [resolveSubscription, hdev, Env.configValue, hcfg]

/-- On a development chain where every call answers, lines 24-52 issue six calls and yield the
address answered by `getAddress()`, the `subId` of the first receipt log, and the handle. -/
theorem resolveSubscription_development (env : Env) (w : World) (fund : JSValue)
    (d : Option Signer) (dep : Deployment) (mock : CoordinatorContract) (addr : JSValue)
    (tx : TransactionResponse) (receipt : TransactionReceipt) (log0 : ReceiptLog)
    (logs : List ReceiptLog) (logArgs : JSObject)
    (hdev : env.isDevelopment = true)
    (hget : w.deploymentsGet "VRFCoordinatorV2Mock" = .ok dep)
    (hat : w.getContractAt dep.abi dep.address d = .ok mock)
    (haddr : mock.getAddress = .ok addr)
    (hcreate : mock.createSubscription = .ok tx)
    (hwait : tx.wait 1 = .ok receipt)
    (hlogs : receipt.logs = log0 :: logs)
    (hargs : log0.args = some logArgs)
    (hfund : mock.fundSubscription (getProp logArgs "subId") fund = .ok ()) :
    resolveSubscription env w fund d =
      ⟨[.deploymentsGet "VRFCoordinatorV2Mock", .getContractAt dep.abi dep.address d,
          .contractCall "getAddress" [], .contractCall "createSubscription" [], .txWait 1,
          .contractCall "fundSubscription" [getProp logArgs "subId", fund]],
        .ok ⟨addr, getProp logArgs "subId", some mock⟩⟩ := by
  simp [resolveSubscription, hdev, hget, hat, haddr, hcreate, hwait, hlogs, hargs, hfund]

/-- Whatever the answers, lines 22-59 issue no deploy, no log, no task and no `addConsumer`,
and on a network that is not a development chain they issue no call at all. -/
theorem resolveSubscription_trace (env : Env) (w : World) (fund : JSValue) (d : Option Signer) :
    (∀ e ∈ (resolveSubscription env w fund d).trace,
        e.isDeploy = false ∧ e.isRun = false ∧ e.isLog = false ∧
          e.isContractCall "addConsumer" = false) ∧
      (env.isDevelopment = false → (resolveSubscription env w fund d).trace = []) := by
  cases hdev : env.isDevelopment with
  | false =>
    have ht : (resolveSubscription env w fund d).trace = [] := by
      cases hcfg : env.chainConfig with
      | none => rw [resolveSubscription_other_missing env w fund d hdev hcfg]
      | some entry => rw [resolveSubscription_other env w fund d entry hdev hcfg]
    exact ⟨by simp [ht], fun _ => ht⟩
  | true =>
    refine ⟨?_, by simp⟩
    cases hget : w.deploymentsGet "VRFCoordinatorV2Mock" with
    | error e =>
      simp [resolveSubscription, hdev, hget, Event.isDeploy, Event.isRun, Event.isLog,
        Event.isContractCall]
    | ok dep =>
      cases hat : w.getContractAt dep.abi dep.address d with
      | error e =>
        simp [resolveSubscription, hdev, hget, hat, Event.isDeploy, Event.isRun, Event.isLog,
          Event.isContractCall]
      | ok mock =>
        cases haddr : mock.getAddress with
        | error e =>
          simp [resolveSubscription, hdev, hget, hat, haddr, Event.isDeploy, Event.isRun,
            Event.isLog, Event.isContractCall]
        | ok addr =>
          cases hcreate : mock.createSubscription with
          | error e =>
            simp [resolveSubscription, hdev, hget, hat, haddr, hcreate, Event.isDeploy,
              Event.isRun, Event.isLog, Event.isContractCall]
          | ok tx =>
            cases hwait : tx.wait 1 with
            | error e =>
              simp [resolveSubscription, hdev, hget, hat, haddr, hcreate, hwait,
                Event.isDeploy, Event.isRun, Event.isLog, Event.isContractCall]
            | ok receipt =>
              cases hlogs : receipt.logs with
              | nil =>
                simp [resolveSubscription, hdev, hget, hat, haddr, hcreate, hwait, hlogs,
                  Event.isDeploy, Event.isRun, Event.isLog, Event.isContractCall]
              | cons log0 logs =>
                cases hargs : log0.args with
                | none =>
                  simp [resolveSubscription, hdev, hget, hat, haddr, hcreate, hwait, hlogs,
                    hargs, Event.isDeploy, Event.isRun, Event.isLog, Event.isContractCall]
                | some logArgs =>
                  cases hfund : mock.fundSubscription (getProp logArgs "subId") fund <;>
                    simp [resolveSubscription, hdev, hget, hat, haddr, hcreate, hwait, hlogs,
                      hargs, hfund, Event.isDeploy, Event.isRun, Event.isLog,
                      Event.isContractCall]

/-- On a development chain, lines 79-94 call `addConsumer` and, if it answers, write the
closing separator. -/
theorem finishDeployment_development (env : Env) (w : World) (sub : Subscription)
    (args : List JSValue) (raffle : DeployResult) (mock : CoordinatorContract)
    (hdev : env.isDevelopment = true) (hmock : sub.VRFCoordinatorV2Mock = some mock) :
    (finishDeployment env w sub args raffle).trace =
      .contractCall "addConsumer" [sub.subscriptionId, raffle.address] ::
        (match mock.addConsumer sub.subscriptionId raffle.address with
          | .ok _ => [separatorLine]
          | .error _ => []) := by
  cases h : mock.addConsumer sub.subscriptionId raffle.address <;>
    simp [finishDeployment, hdev, hmock, h, separatorLine]

/-- On a development chain, lines 79-94 never run a task. -/
theorem finishDeployment_development_noRun (env : Env) (w : World) (sub : Subscription)
    (args : List JSValue) (raffle : DeployResult) (hdev : env.isDevelopment = true) :
    ∀ e ∈ (finishDeployment env w sub args raffle).trace,
      e.isRun = false ∧ e.isDeploy = false := by
  cases hmock : sub.VRFCoordinatorV2Mock with
  | none => simp [finishDeployment, hdev, hmock]
  | some mock =>
    rw [finishDeployment_development env w sub args raffle mock hdev hmock]
    cases h : mock.addConsumer sub.subscriptionId raffle.address <;>
      simp [Event.isRun, Event.isDeploy, separatorLine]

/-- Off the development chains and without an explorer key, lines 79-94 only write the closing
separator. -/
theorem finishDeployment_other_noKey (env : Env) (w : World) (sub : Subscription)
    (args : List JSValue) (raffle : DeployResult) (hdev : env.isDevelopment = false)
    (hkey : envTruthy env.ETHERSCAN_API_KEY = false) :
    finishDeployment env w sub args raffle = ⟨[separatorLine], .ok ()⟩ := by
  simp [finishDeployment, hdev, hkey, separatorLine]
  rfl

/-- Off the development chains and with an explorer key, lines 79-94 announce the verification,
call `verify`, and, if `verify` returns, write "Verified contract" and the closing separator. -/
theorem finishDeployment_other_key (env : Env) (w : World) (sub : Subscription)
    (args : List JSValue) (raffle : DeployResult) (hdev : env.isDevelopment = false)
    (hkey : envTruthy env.ETHERSCAN_API_KEY = true) :
    (finishDeployment env w sub args raffle).trace =
        announceLine raffle.address args :: ((verify w raffle.address args).trace ++
          (match (verify w raffle.address args).result with
            | .ok _ => [.log (.lit "Verified contract"), separatorLine]
            | .error _ => [])) ∧
      (finishDeployment env w sub args raffle).result =
        (match (verify w raffle.address args).result with
          | .ok _ => .ok ()
          | .error e => .error e) := by
  cases h : (verify w raffle.address args).result with
  | error e =>
    simp [finishDeployment, hdev, hkey, announceLine, Run.bind_of_error h]
  | ok u =>
    simp [finishDeployment, hdev, hkey, announceLine, Run.bind_of_ok h, separatorLine]

/-- The task runs issued by lines 79-94: none, or the single run of `verify:verify` on the
deployed address with the constructor arguments, when the network is not a development chain
and the explorer key is set. No deploy is issued. -/
theorem finishDeployment_runs (env : Env) (w : World) (sub : Subscription)
    (args : List JSValue) (raffle : DeployResult) :
    (finishDeployment env w sub args raffle).trace.filter Event.isRun =
        (if (!env.isDevelopment && envTruthy env.ETHERSCAN_API_KEY) = true
          then [.run "verify:verify" raffle.address args] else []) ∧
      (∀ e ∈ (finishDeployment env w sub args raffle).trace, e.isDeploy = false) ∧
      (env.isDevelopment = false → ∀ e ∈ (finishDeployment env w sub args raffle).trace,
        ∀ method, e.isContractCall method = false) := by
  cases hdev : env.isDevelopment with
  | true =>
    have h := finishDeployment_development_noRun env w sub args raffle hdev
    refine ⟨?_, fun e he => (h e he).2, by simp⟩
    simp only [Bool.not_true, Bool.false_and, Bool.false_eq_true, if_false,
      List.filter_eq_nil_iff]
    intro e he
    simp [(h e he).1]
  | false =>
    cases hkey : envTruthy env.ETHERSCAN_API_KEY with
    | false =>
      rw [finishDeployment_other_noKey env w sub args raffle hdev hkey]
      simp [separatorLine, Event.isRun, Event.isDeploy, Event.isContractCall, List.filter]
    | true =>
      obtain ⟨tail, ht, hcl⟩ := verify_trace w raffle.address args
      have htailRun : tail.filter Event.isRun = ([] : List Event) := by
        rw [List.filter_eq_nil_iff]
        intro e he
        obtain ⟨msg, rfl⟩ := hcl e he
        simp [Event.isRun]
      have htailP : ∀ e ∈ tail, e.isDeploy = false ∧ ∀ method, e.isContractCall method = false := by
        intro e he
        obtain ⟨msg, rfl⟩ := hcl e he
        exact ⟨rfl, fun _ => rfl⟩
      rw [(finishDeployment_other_key env w sub args raffle hdev hkey).1, ht]
      have hall : ∀ e ∈ announceLine raffle.address args ::
          ((verifyingLine raffle.address :: Event.run "verify:verify" raffle.address args :: tail)
            ++ (match (verify w raffle.address args).result with
              | .ok _ => [.log (.lit "Verified contract"), separatorLine]
              | .error _ => [])),
          e.isDeploy = false ∧ ∀ method, e.isContractCall method = false := by
        intro e he
        cases hr : (verify w raffle.address args).result <;>
          simp only [hr, List.mem_cons, List.mem_append, List.append_nil, List.not_mem_nil,
            or_false] at he
        · rcases he with rfl | rfl | rfl | he
          · exact ⟨rfl, fun _ => rfl⟩
          · exact ⟨rfl, fun _ => rfl⟩
          · exact ⟨rfl, fun _ => rfl⟩
          · exact htailP e he
        · rcases he with rfl | (rfl | rfl | he) | rfl | rfl
          · exact ⟨rfl, fun _ => rfl⟩
          · exact ⟨rfl, fun _ => rfl⟩
          · exact ⟨rfl, fun _ => rfl⟩
          · exact htailP e he
          · exact ⟨rfl, fun _ => rfl⟩
          · exact ⟨rfl, fun _ => rfl⟩
      refine ⟨?_, fun e he => (hall e he).1, fun _ e he => (hall e he).2⟩
      cases (verify w raffle.address args).result <;>
        simp [announceLine, verifyingLine, separatorLine, Event.isRun, List.filter, htailRun]

/-- When the signers are returned, lines 22-59 complete and the chain has a configuration
entry, the deployer goes on to deploy `Raffle` with the six constructor arguments and then runs
lines 79-94. -/
theorem raffleDeployer_reaches_deploy (env : Env) (w : World) (deployer : Signer)
    (rest : List Signer) (sub : Subscription) (entry : JSObject)
    (hsig : w.getSigners = .ok (deployer :: rest))
    (hres : (resolveSubscription env w fundAmount (some deployer)).result = .ok sub)
    (hcfg : env.chainConfig = some entry) :
    raffleDeployer env w =
      ⟨.getSigners :: ((resolveSubscription env w fundAmount (some deployer)).trace ++
          (Run.call
              (.deploy "Raffle" ⟨deployer.address,
                constructorArgs sub.vrfCoordinatorV2Address sub.subscriptionId entry, true⟩)
              (w.deploy "Raffle" ⟨deployer.address,
                constructorArgs sub.vrfCoordinatorV2Address sub.subscriptionId entry, true⟩)
            >>= finishDeployment env w sub
              (constructorArgs sub.vrfCoordinatorV2Address sub.subscriptionId entry)).trace),
        (Run.call
              (.deploy "Raffle" ⟨deployer.address,
                constructorArgs sub.vrfCoordinatorV2Address sub.subscriptionId entry, true⟩)
              (w.deploy "Raffle" ⟨deployer.address,
                constructorArgs sub.vrfCoordinatorV2Address sub.subscriptionId entry, true⟩)
            >>= finishDeployment env w sub
              (constructorArgs sub.vrfCoordinatorV2Address sub.subscriptionId entry)).result⟩ := by
  have hres2 : (resolveSubscription env w (.bigint 20000000000000000000)
      (some deployer)).result = .ok sub := hres
  simp [raffleDeployer, VRF_SUB_FUND_AMOUNT_eq, hsig, Run.bind_of_ok hres2, Env.configValue,
    hcfg, constructorArgs, fundAmount]

/-- The trace of the deployer once the deploy of `Raffle` has answered. -/
theorem raffleDeployer_trace_of_deploy_ok (env : Env) (w : World) (deployer : Signer)
    (rest : List Signer) (sub : Subscription) (entry : JSObject) (raffle : DeployResult)
    (hsig : w.getSigners = .ok (deployer :: rest))
    (hres : (resolveSubscription env w fundAmount (some deployer)).result = .ok sub)
    (hcfg : env.chainConfig = some entry)
    (hdeploy : w.deploy "Raffle" ⟨deployer.address,
      constructorArgs sub.vrfCoordinatorV2Address sub.subscriptionId entry, true⟩ = .ok raffle) :
    raffleDeployer env w =
      ⟨.getSigners :: ((resolveSubscription env w fundAmount (some deployer)).trace ++
          .deploy "Raffle" ⟨deployer.address,
              constructorArgs sub.vrfCoordinatorV2Address sub.subscriptionId entry, true⟩ ::
            (finishDeployment env w sub
              (constructorArgs sub.vrfCoordinatorV2Address sub.subscriptionId entry)
              raffle).trace),
        (finishDeployment env w sub
          (constructorArgs sub.vrfCoordinatorV2Address sub.subscriptionId entry)
          raffle).result⟩ := by
  rw [raffleDeployer_reaches_deploy env w deployer rest sub entry hsig hres hcfg, hdeploy]
  simp

/-- Without a configuration entry for the chain the deployer throws, having issued only
`getSigners()` and the calls of lines 22-59. -/
theorem raffleDeployer_missing_config (env : Env) (w : World) (hcfg : env.chainConfig = none) :
    (∃ err, (raffleDeployer env w).result = .error err) ∧
      (raffleDeployer env w).trace = .getSigners ::
        (match w.getSigners with
          | .ok signers => (resolveSubscription env w fundAmount signers.head?).trace
          | .error _ => []) := by
  cases hsig : w.getSigners with
  | error e =>
    simp [raffleDeployer, VRF_SUB_FUND_AMOUNT_eq, hsig]
  | ok signers =>
    cases hres : (resolveSubscription env w (.bigint 20000000000000000000) signers.head?).result
      with
    | error e =>
      simp [raffleDeployer, VRF_SUB_FUND_AMOUNT_eq, hsig, Run.bind_of_error hres, fundAmount]
    | ok sub =>
      simp [raffleDeployer, VRF_SUB_FUND_AMOUNT_eq, hsig, Run.bind_of_ok hres, fundAmount,
        Env.configValue, hcfg]

theorem isDevelopment_iff (env : Env) :
    env.isDevelopment = true ↔ env.networkName ∈ env.developmentChains := by
  simp [Env.isDevelopment]

theorem isDevelopment_eq_false_iff (env : Env) :
    env.isDevelopment = false ↔ env.networkName ∉ env.developmentChains := by
  rw [← isDevelopment_iff]
  simp

theorem envTruthy_iff (key : Option String) :
    envTruthy key = true ↔ ∃ k, key = some k ∧ k ≠ "" := by
  cases key with
  | none => simp [envTruthy]
  | some k => simp [envTruthy]

/-- The deploys issued by a run that gets past lines 22-59: exactly one, of `Raffle`. -/
theorem raffleDeployer_deploys (env : Env) (w : World) (deployer : Signer)
    (rest : List Signer) (sub : Subscription) (entry : JSObject)
    (hsig : w.getSigners = .ok (deployer :: rest))
    (hres : (resolveSubscription env w fundAmount (some deployer)).result = .ok sub)
    (hcfg : env.chainConfig = some entry) :
    (raffleDeployer env w).trace.filter Event.isDeploy =
      [.deploy "Raffle" ⟨deployer.address,
        constructorArgs sub.vrfCoordinatorV2Address sub.subscriptionId entry, true⟩] := by
  have hR : (resolveSubscription env w fundAmount (some deployer)).trace.filter Event.isDeploy
      = [] := by
    rw [List.filter_eq_nil_iff]
    intro e he
    simp [((resolveSubscription_trace env w fundAmount (some deployer)).1 e he).1]
  rw [raffleDeployer_reaches_deploy env w deployer rest sub entry hsig hres hcfg]
  cases hd : w.deploy "Raffle" ⟨deployer.address,
      constructorArgs sub.vrfCoordinatorV2Address sub.subscriptionId entry, true⟩ with
  | error e => simp [List.filter_cons, Event.isDeploy, hR]
  | ok raffle =>
    have hF : (finishDeployment env w sub
        (constructorArgs sub.vrfCoordinatorV2Address sub.subscriptionId entry)
        raffle).trace.filter Event.isDeploy = [] := by
      rw [List.filter_eq_nil_iff]
      intro e he
      simp [(finishDeployment_runs env w sub _ raffle).2.1 e he]
    simp [List.filter_cons, Event.isDeploy, hR, hF]

/-- The whole run on a development chain where every call up to the deploy answers. -/
theorem raffleDeployer_development_trace (env : Env) (w : World) (deployer : Signer)
    (rest : List Signer) (entry : JSObject) (dep : Deployment) (mock : CoordinatorContract)
    (addr : JSValue) (tx : TransactionResponse) (receipt : TransactionReceipt)
    (log0 : ReceiptLog) (logs : List ReceiptLog) (logArgs : JSObject) (raffle : DeployResult)
    (hdev : env.isDevelopment = true)
    (hcfg : env.chainConfig = some entry)
    (hsig : w.getSigners = .ok (deployer :: rest))
    (hget : w.deploymentsGet "VRFCoordinatorV2Mock" = .ok dep)
    (hat : w.getContractAt dep.abi dep.address (some deployer) = .ok mock)
    (haddr : mock.getAddress = .ok addr)
    (hcreate : mock.createSubscription = .ok tx)
    (hwait : tx.wait 1 = .ok receipt)
    (hlogs : receipt.logs = log0 :: logs)
    (hargs : log0.args = some logArgs)
    (hfund : mock.fundSubscription (getProp logArgs "subId") fundAmount = .ok ())
    (hdeploy : w.deploy "Raffle" ⟨deployer.address,
      constructorArgs addr (getProp logArgs "subId") entry, true⟩ = .ok raffle) :
    (raffleDeployer env w).trace =
      [.getSigners, .deploymentsGet "VRFCoordinatorV2Mock",
        .getContractAt dep.abi dep.address (some deployer),
        .contractCall "getAddress" [], .contractCall "createSubscription" [], .txWait 1,
        .contractCall "fundSubscription" [getProp logArgs "subId", fundAmount],
        .deploy "Raffle" ⟨deployer.address,
          constructorArgs addr (getProp logArgs "subId") entry, true⟩,
        .contractCall "addConsumer" [getProp logArgs "subId", raffle.address]] ++
        (match mock.addConsumer (getProp logArgs "subId") raffle.address with
          | .ok _ => [separatorLine]
          | .error _ => []) := by
  have hR := resolveSubscription_development env w fundAmount (some deployer) dep mock addr tx
    receipt log0 logs logArgs hdev hget hat haddr hcreate hwait hlogs hargs hfund
  have hres : (resolveSubscription env w fundAmount (some deployer)).result
      = .ok ⟨addr, getProp logArgs "subId", some mock⟩ := by rw [hR]
  rw [raffleDeployer_trace_of_deploy_ok env w deployer rest _ entry raffle hsig hres hcfg hdeploy,
    hR]
  simp [finishDeployment_development env w ⟨addr, getProp logArgs "subId", some mock⟩ _ raffle
    mock hdev rfl]

/-- The whole run off the development chains, once the deploy of `Raffle` has answered. -/
theorem raffleDeployer_other_trace (env : Env) (w : World) (deployer : Signer)
    (rest : List Signer) (entry : JSObject) (raffle : DeployResult)
    (hdev : env.isDevelopment = false)
    (hcfg : env.chainConfig = some entry)
    (hsig : w.getSigners = .ok (deployer :: rest))
    (hdeploy : w.deploy "Raffle" ⟨deployer.address,
      constructorArgs (getProp entry "vrfCoordinatorV2") (getProp entry "subscriptionId") entry,
      true⟩ = .ok raffle) :
    raffleDeployer env w =
      ⟨.getSigners :: .deploy "Raffle" ⟨deployer.address,
          constructorArgs (getProp entry "vrfCoordinatorV2") (getProp entry "subscriptionId")
            entry, true⟩ ::
          (finishDeployment env w
            ⟨getProp entry "vrfCoordinatorV2", getProp entry "subscriptionId", none⟩
            (constructorArgs (getProp entry "vrfCoordinatorV2") (getProp entry "subscriptionId")
              entry) raffle).trace,
        (finishDeployment env w
            ⟨getProp entry "vrfCoordinatorV2", getProp entry "subscriptionId", none⟩
            (constructorArgs (getProp entry "vrfCoordinatorV2") (getProp entry "subscriptionId")
              entry) raffle).result⟩ := by
  have hR := resolveSubscription_other env w fundAmount (some deployer) entry hdev hcfg
  have hres : (resolveSubscription env w fundAmount (some deployer)).result
      = .ok ⟨getProp entry "vrfCoordinatorV2", getProp entry "subscriptionId", none⟩ := by
    rw [hR]
  rw [raffleDeployer_trace_of_deploy_ok env w deployer rest _ entry raffle hsig hres hcfg hdeploy,
    hR]
  simp

/-- Off the development chains no contract method is ever called. -/
theorem raffleDeployer_other_noContractCall (env : Env) (w : World)
    (hdev : env.isDevelopment = false) :
    ∀ e ∈ (raffleDeployer env w).trace, ∀ method, e.isContractCall method = false := by
  cases hsig : w.getSigners with
  | error err =>
    simp [raffleDeployer, VRF_SUB_FUND_AMOUNT_eq, hsig, Event.isContractCall]
  | ok signers =>
    cases hcfg : env.chainConfig with
    | none =>
      have h := (raffleDeployer_missing_config env w hcfg).2
      rw [hsig] at h
      simp only at h
      rw [h, (resolveSubscription_trace env w fundAmount signers.head?).2 hdev]
      simp [Event.isContractCall]
    | some entry =>
      cases signers with
      | nil =>
        have hR := resolveSubscription_other env w (.bigint 20000000000000000000) none entry
          hdev hcfg
        simp [raffleDeployer, VRF_SUB_FUND_AMOUNT_eq, hsig, hR, Env.configValue, hcfg,
          Event.isContractCall]
      | cons deployer rest =>
        have hR := resolveSubscription_other env w fundAmount (some deployer) entry hdev hcfg
        have hres : (resolveSubscription env w fundAmount (some deployer)).result
            = .ok ⟨getProp entry "vrfCoordinatorV2", getProp entry "subscriptionId", none⟩ := by
          rw [hR]
        rw [raffleDeployer_reaches_deploy env w deployer rest _ entry hsig hres hcfg, hR]
        cases hd : w.deploy "Raffle" ⟨deployer.address,
            constructorArgs (getProp entry "vrfCoordinatorV2") (getProp entry "subscriptionId")
              entry, true⟩ with
        | error err => simp [Event.isContractCall]
        | ok raffle =>
          intro e he method
          simp only [Run.call_ok_bind, List.nil_append, List.mem_cons] at he
          rcases he with rfl | rfl | he
          · rfl
          · rfl
          · exact (finishDeployment_runs env w _ _ raffle).2.2 hdev e he method

/-! ## The claims about deploy/01-deploy-raffle.js -/

/-- C1. The Raffle constructor arguments. On every network, development or not, whose chain id
has a `networkConfig` entry, a run in which `getSigners()` answers and lines 22-59 complete
issues exactly one deploy; it is a deploy of `"Raffle"` whose argument list has the six
elements `[vrfCoordinatorV2Address, entranceFee, gasLane, subscriptionId, callbackGasLimit,
interval]` in this order, the four configuration values being those `networkConfig[chainId]`
holds under these keys; in particular the sixth is `networkConfig[chainId]["interval"]`. -/
theorem raffleDeployer_constructor_arguments (env : Env) (w : World) (deployer : Signer)
    (rest : List Signer) (sub : Subscription) (entry : JSObject)
    (hcfg : env.networkConfig.lookup (propertyKey env.chainId) = some entry)
    (hsig : w.getSigners = .ok (deployer :: rest))
    (hres : (resolveSubscription env w (.bigint 20000000000000000000) (some deployer)).result
      = .ok sub) :
    (raffleDeployer env w).trace.filter Event.isDeploy =
      [.deploy "Raffle"
        ⟨deployer.address,
          [sub.vrfCoordinatorV2Address, getProp entry "entranceFee", getProp entry "gasLane",
            sub.subscriptionId, getProp entry "callbackGasLimit", getProp entry "interval"],
          true⟩] :=
  raffleDeployer_deploys env w deployer rest sub entry hsig hres hcfg

/-- C1, at the sample `sepolia` surroundings. -/
theorem raffleDeployer_constructor_arguments_witness :
    (raffleDeployer sepoliaEnv sampleWorld).trace.filter Event.isDeploy =
      [.deploy "Raffle"
        ⟨.string "0xf39Fd6e51aad88F6F4ce6aB8827279cffFb92266",
          [.string "0x8103B0A8A00be2DDC778e6e7eaa21791Cd364625", .bigint 10000000000000000,
            .string "0x474e34a077df58807dbe9c96d3c009b23b3c6d0cce433e59bbf5b34f823bc56c",
            .string "6926", .string "500000", .string "30"],
          true⟩] :=
  raffleDeployer_constructor_arguments sepoliaEnv sampleWorld sampleDeployer
    [⟨.string "0x70997970C51812dc3A010C7d01b50e0d17dc79C8"⟩]
    ⟨.string "0x8103B0A8A00be2DDC778e6e7eaa21791Cd364625", .string "6926", none⟩
    [("name", .string "sepolia"),
      ("vrfCoordinatorV2", .string "0x8103B0A8A00be2DDC778e6e7eaa21791Cd364625"),
      ("entranceFee", .bigint 10000000000000000),
      ("gasLane", .string "0x474e34a077df58807dbe9c96d3c009b23b3c6d0cce433e59bbf5b34f823bc56c"),
      ("subscriptionId", .string "6926"),
      ("callbackGasLimit", .string "500000"), ("interval", .string "30")]
    rfl rfl rfl

/-- C2. One subscription, end to end, on a development chain. When `network.name` is in
`developmentChains`, the chain has a configuration entry and every call answers, the run
starts with these nine calls in this order: `getSigners`, `deployments.get` of the mock, the
handle attached at the address of that deployment, `getAddress()`, `createSubscription()`,
`wait(1)`, `fundSubscription(subId, 20000000000000000000)`, the deploy of `Raffle` whose first
argument is the address answered by the mock handle and whose fourth is `subId`, and
`addConsumer(subId, raffle.address)`; `subId` is the `subId` argument of the first log of the
receipt. Only log lines follow. -/
theorem raffleDeployer_wires_one_subscription (env : Env) (w : World) (deployer : Signer)
    (rest : List Signer) (entry : JSObject) (dep : Deployment) (mock : CoordinatorContract)
    (addr : JSValue) (tx : TransactionResponse) (receipt : TransactionReceipt)
    (log0 : ReceiptLog) (logs : List ReceiptLog) (logArgs : JSObject) (raffle : DeployResult)
    (hdev : env.networkName ∈ env.developmentChains)
    (hcfg : env.networkConfig.lookup (propertyKey env.chainId) = some entry)
    (hsig : w.getSigners = .ok (deployer :: rest))
    (hget : w.deploymentsGet "VRFCoordinatorV2Mock" = .ok dep)
    (hat : w.getContractAt dep.abi dep.address (some deployer) = .ok mock)
    (haddr : mock.getAddress = .ok addr)
    (hcreate : mock.createSubscription = .ok tx)
    (hwait : tx.wait 1 = .ok receipt)
    (hlogs : receipt.logs = log0 :: logs)
    (hargs : log0.args = some logArgs)
    (hfund : mock.fundSubscription (getProp logArgs "subId") (.bigint 20000000000000000000)
      = .ok ())
    (hdeploy : w.deploy "Raffle"
      ⟨deployer.address,
        [addr, getProp entry "entranceFee", getProp entry "gasLane", getProp logArgs "subId",
          getProp entry "callbackGasLimit", getProp entry "interval"], true⟩ = .ok raffle) :
    ∃ tail, (∀ e ∈ tail, e.isLog = true) ∧
      (raffleDeployer env w).trace =
        [.getSigners, .deploymentsGet "VRFCoordinatorV2Mock",
          .getContractAt dep.abi dep.address (some deployer),
          .contractCall "getAddress" [], .contractCall "createSubscription" [], .txWait 1,
          .contractCall "fundSubscription"
            [getProp logArgs "subId", .bigint 20000000000000000000],
          .deploy "Raffle"
            ⟨deployer.address,
              [addr, getProp entry "entranceFee", getProp entry "gasLane",
                getProp logArgs "subId", getProp entry "callbackGasLimit",
                getProp entry "interval"], true⟩,
          .contractCall "addConsumer" [getProp logArgs "subId", raffle.address]] ++ tail := by
  have h := raffleDeployer_development_trace env w deployer rest entry dep mock addr tx receipt
    log0 logs logArgs raffle ((isDevelopment_iff env).2 hdev) hcfg hsig hget hat haddr hcreate
    hwait hlogs hargs hfund hdeploy
  refine ⟨_, ?_, h⟩
  cases mock.addConsumer (getProp logArgs "subId") raffle.address <;>
    simp [separatorLine, Event.isLog]

/-- C2, at the sample `hardhat` surroundings. -/
theorem raffleDeployer_wires_one_subscription_witness :
    ∃ tail, (∀ e ∈ tail, e.isLog = true) ∧
      (raffleDeployer hardhatEnv sampleWorld).trace =
        [.getSigners, .deploymentsGet "VRFCoordinatorV2Mock",
          .getContractAt "VRFCoordinatorV2Mock.abi"
            (.string "0x5FbDB2315678afecb367f032d93F642f64180aa3") (some sampleDeployer),
          .contractCall "getAddress" [], .contractCall "createSubscription" [], .txWait 1,
          .contractCall "fundSubscription" [.bigint 1, .bigint 20000000000000000000],
          .deploy "Raffle"
            ⟨.string "0xf39Fd6e51aad88F6F4ce6aB8827279cffFb92266",
              [.string "0x5FbDB2315678afecb367f032d93F642f64180aa3", .bigint 10000000000000000,
                .string "0x474e34a077df58807dbe9c96d3c009b23b3c6d0cce433e59bbf5b34f823bc56c",
                .bigint 1, .string "500000", .string "30"], true⟩,
          .contractCall "addConsumer"
            [.bigint 1, .string "0xe7f1725E7734CE288F8367e1Bb143E90bb3F0512"]] ++ tail :=
  raffleDeployer_wires_one_subscription hardhatEnv sampleWorld sampleDeployer
    [⟨.string "0x70997970C51812dc3A010C7d01b50e0d17dc79C8"⟩]
    [("name", .string "hardhat"), ("entranceFee", .bigint 10000000000000000),
      ("gasLane", .string "0x474e34a077df58807dbe9c96d3c009b23b3c6d0cce433e59bbf5b34f823bc56c"),
      ("callbackGasLimit", .string "500000"), ("interval", .string "30")]
    sampleMockDeployment sampleMock (.string "0x5FbDB2315678afecb367f032d93F642f64180aa3")
    sampleTransaction sampleReceipt ⟨some sampleLogArgs⟩ [] sampleLogArgs sampleRaffle
    (by decide) rfl rfl rfl rfl rfl rfl rfl rfl rfl rfl rfl

/-- C3, refuted as stated. On the sample `sepolia` network the run deploys `Raffle` with the
subscription id "6926" as fourth argument, yet it calls no contract method at all: it neither
funds that subscription nor registers the contract as its consumer. -/
theorem raffleDeployer_other_network_neither_funds_nor_registers :
    (raffleDeployer sepoliaEnv sampleWorld).result = .ok () ∧
      (raffleDeployer sepoliaEnv sampleWorld).trace.filter Event.isDeploy =
        [.deploy "Raffle"
          ⟨.string "0xf39Fd6e51aad88F6F4ce6aB8827279cffFb92266",
            [.string "0x8103B0A8A00be2DDC778e6e7eaa21791Cd364625", .bigint 10000000000000000,
              .string "0x474e34a077df58807dbe9c96d3c009b23b3c6d0cce433e59bbf5b34f823bc56c",
              .string "6926", .string "500000", .string "30"],
            true⟩] ∧
      ∀ e ∈ (raffleDeployer sepoliaEnv sampleWorld).trace,
        e.isContractCall "fundSubscription" = false ∧ e.isContractCall "addConsumer" = false :=
  ⟨rfl, by decide, by decide⟩

/-- C3, amended. On a development chain whose calls all answer, the run funds the subscription
whose id it passes to the Raffle constructor (before the deploy) and registers the deployed
`Raffle` as a consumer of that subscription (after the deploy). On a network that is not a
development chain it does neither: whatever the runtime answers, and whether or not a mock is
deployed, the run calls no contract method, so no `fundSubscription` and no `addConsumer`; and
when the chain has a configuration entry and `getSigners()` answers, the subscription id it
passes to the Raffle constructor is `networkConfig[chainId]["subscriptionId"]`. -/
theorem raffleDeployer_funds_and_registers_on_development :
    (∀ (env : Env) (w : World) (deployer : Signer) (rest : List Signer) (entry : JSObject)
        (dep : Deployment) (mock : CoordinatorContract) (addr : JSValue)
        (tx : TransactionResponse) (receipt : TransactionReceipt) (log0 : ReceiptLog)
        (logs : List ReceiptLog) (logArgs : JSObject) (raffle : DeployResult),
        env.networkName ∈ env.developmentChains →
        env.networkConfig.lookup (propertyKey env.chainId) = some entry →
        w.getSigners = .ok (deployer :: rest) →
        w.deploymentsGet "VRFCoordinatorV2Mock" = .ok dep →
        w.getContractAt dep.abi dep.address (some deployer) = .ok mock →
        mock.getAddress = .ok addr →
        mock.createSubscription = .ok tx →
        tx.wait 1 = .ok receipt →
        receipt.logs = log0 :: logs →
        log0.args = some logArgs →
        mock.fundSubscription (getProp logArgs "subId") (.bigint 20000000000000000000)
          = .ok () →
        w.deploy "Raffle"
          ⟨deployer.address,
            [addr, getProp entry "entranceFee", getProp entry "gasLane",
              getProp logArgs "subId", getProp entry "callbackGasLimit",
              getProp entry "interval"], true⟩ = .ok raffle →
        ∃ subscriptionId opts before between after,
          opts.args.get? 3 = some subscriptionId ∧
          (raffleDeployer env w).trace =
            before ++ [.contractCall "fundSubscription"
                [subscriptionId, .bigint 20000000000000000000]] ++
              between ++ [.deploy "Raffle" opts,
                .contractCall "addConsumer" [subscriptionId, raffle.address]] ++ after) ∧
      (∀ (env : Env) (w : World),
        env.networkName ∉ env.developmentChains →
        ∀ e ∈ (raffleDeployer env w).trace, ∀ method, e.isContractCall method = false) ∧
      (∀ (env : Env) (w : World) (deployer : Signer) (rest : List Signer) (entry : JSObject),
        env.networkName ∉ env.developmentChains →
        env.networkConfig.lookup (propertyKey env.chainId) = some entry →
        w.getSigners = .ok (deployer :: rest) →
        ∃ opts,
          (raffleDeployer env w).trace.filter Event.isDeploy = [.deploy "Raffle" opts] ∧
          opts.args.get? 3 = some (getProp entry "subscriptionId")) := by
  refine ⟨fun env w deployer rest entry dep mock addr tx receipt log0 logs logArgs raffle hdev
      hcfg hsig hget hat haddr hcreate hwait hlogs hargs hfund hdeploy => ?_,
    fun env w hdev =>
      raffleDeployer_other_noContractCall env w ((isDevelopment_eq_false_iff env).2 hdev),
    fun env w deployer rest entry hdev hcfg hsig => ?_⟩
  · have h := raffleDeployer_development_trace env w deployer rest entry dep mock addr tx
      receipt log0 logs logArgs raffle ((isDevelopment_iff env).2 hdev) hcfg hsig hget hat
      haddr hcreate hwait hlogs hargs hfund hdeploy
    refine ⟨getProp logArgs "subId",
      ⟨deployer.address, constructorArgs addr (getProp logArgs "subId") entry, true⟩,
      [.getSigners, .deploymentsGet "VRFCoordinatorV2Mock",
        .getContractAt dep.abi dep.address (some deployer),
        .contractCall "getAddress" [], .contractCall "createSubscription" [], .txWait 1],
      [],
      (match mock.addConsumer (getProp logArgs "subId") raffle.address with
        | .ok _ => [separatorLine]
        | .error _ => []), rfl, ?_⟩
    rw [h]
    rfl
  · have hd := (isDevelopment_eq_false_iff env).2 hdev
    have hR := resolveSubscription_other env w fundAmount (some deployer) entry hd hcfg
    have hres : (resolveSubscription env w fundAmount (some deployer)).result
        = .ok ⟨getProp entry "vrfCoordinatorV2", getProp entry "subscriptionId", none⟩ := by
      rw [hR]
    exact ⟨_, raffleDeployer_deploys env w deployer rest _ entry hsig hres hcfg, rfl⟩

/-- C3 amended, at the sample surroundings: the `hardhat` run funds and registers the
subscription 1; the `sepolia` run, on a runtime without a mock, calls no contract method and
passes the configured subscription id "6926" to the constructor. -/
theorem raffleDeployer_funds_and_registers_on_development_witness :
    (∃ subscriptionId opts before between after,
        opts.args.get? 3 = some subscriptionId ∧
        (raffleDeployer hardhatEnv sampleWorld).trace =
          before ++ [.contractCall "fundSubscription"
              [subscriptionId, .bigint 20000000000000000000]] ++
            between ++ [.deploy "Raffle" opts,
              .contractCall "addConsumer" [subscriptionId, sampleRaffle.address]] ++ after) ∧
      (∀ e ∈ (raffleDeployer sepoliaEnv publicWorld).trace, ∀ method,
          e.isContractCall method = false) ∧
      (∃ opts,
        (raffleDeployer sepoliaEnv publicWorld).trace.filter Event.isDeploy
          = [.deploy "Raffle" opts] ∧
        opts.args.get? 3 = some (.string "6926")) :=
  ⟨raffleDeployer_funds_and_registers_on_development.1 hardhatEnv sampleWorld sampleDeployer
      [⟨.string "0x70997970C51812dc3A010C7d01b50e0d17dc79C8"⟩]
      [("name", .string "hardhat"), ("entranceFee", .bigint 10000000000000000),
        ("gasLane", .string "0x474e34a077df58807dbe9c96d3c009b23b3c6d0cce433e59bbf5b34f823bc56c"),
        ("callbackGasLimit", .string "500000"), ("interval", .string "30")]
      sampleMockDeployment sampleMock (.string "0x5FbDB2315678afecb367f032d93F642f64180aa3")
      sampleTransaction sampleReceipt ⟨some sampleLogArgs⟩ [] sampleLogArgs sampleRaffle
      (by decide) rfl rfl rfl rfl rfl rfl rfl rfl rfl rfl rfl,
    raffleDeployer_funds_and_registers_on_development.2.1 sepoliaEnv publicWorld (by decide),
    raffleDeployer_funds_and_registers_on_development.2.2 sepoliaEnv publicWorld sampleDeployer
      [⟨.string "0x70997970C51812dc3A010C7d01b50e0d17dc79C8"⟩]
      [("name", .string "sepolia"),
        ("vrfCoordinatorV2", .string "0x8103B0A8A00be2DDC778e6e7eaa21791Cd364625"),
        ("entranceFee", .bigint 10000000000000000),
        ("gasLane", .string "0x474e34a077df58807dbe9c96d3c009b23b3c6d0cce433e59bbf5b34f823bc56c"),
        ("subscriptionId", .string "6926"),
        ("callbackGasLimit", .string "500000"), ("interval", .string "30")]
      (by decide) rfl rfl⟩

/-- C4. Off the development chains the coordinator and the subscription come from the
configuration. When `network.name` is not in `developmentChains`, the chain has a
`networkConfig` entry and `getSigners()` answers, the one deploy issued is that of `Raffle`
with first argument `networkConfig[chainId]["vrfCoordinatorV2"]` and fourth argument
`networkConfig[chainId]["subscriptionId"]`, and the run calls no contract method, so no
`createSubscription`. -/
theorem raffleDeployer_other_network_uses_configuration (env : Env) (w : World)
    (deployer : Signer) (rest : List Signer) (entry : JSObject)
    (hdev : env.networkName ∉ env.developmentChains)
    (hcfg : env.networkConfig.lookup (propertyKey env.chainId) = some entry)
    (hsig : w.getSigners = .ok (deployer :: rest)) :
    (raffleDeployer env w).trace.filter Event.isDeploy =
        [.deploy "Raffle"
          ⟨deployer.address,
            [getProp entry "vrfCoordinatorV2", getProp entry "entranceFee",
              getProp entry "gasLane", getProp entry "subscriptionId",
              getProp entry "callbackGasLimit", getProp entry "interval"],
            true⟩] ∧
      ∀ e ∈ (raffleDeployer env w).trace, ∀ method, e.isContractCall method = false := by
  have hd := (isDevelopment_eq_false_iff env).2 hdev
  have hR := resolveSubscription_other env w fundAmount (some deployer) entry hd hcfg
  have hres : (resolveSubscription env w fundAmount (some deployer)).result
      = .ok ⟨getProp entry "vrfCoordinatorV2", getProp entry "subscriptionId", none⟩ := by
    rw [hR]
  exact ⟨raffleDeployer_deploys env w deployer rest _ entry hsig hres hcfg,
    raffleDeployer_other_noContractCall env w hd⟩

/-- C4, at the sample `sepolia` surroundings. -/
theorem raffleDeployer_other_network_uses_configuration_witness :
    (raffleDeployer sepoliaEnv sampleWorld).trace.filter Event.isDeploy =
        [.deploy "Raffle"
          ⟨.string "0xf39Fd6e51aad88F6F4ce6aB8827279cffFb92266",
            [.string "0x8103B0A8A00be2DDC778e6e7eaa21791Cd364625", .bigint 10000000000000000,
              .string "0x474e34a077df58807dbe9c96d3c009b23b3c6d0cce433e59bbf5b34f823bc56c",
              .string "6926", .string "500000", .string "30"],
            true⟩] ∧
      ∀ e ∈ (raffleDeployer sepoliaEnv sampleWorld).trace, ∀ method,
        e.isContractCall method = false :=
  raffleDeployer_other_network_uses_configuration sepoliaEnv sampleWorld sampleDeployer
    [⟨.string "0x70997970C51812dc3A010C7d01b50e0d17dc79C8"⟩]
    [("name", .string "sepolia"),
      ("vrfCoordinatorV2", .string "0x8103B0A8A00be2DDC778e6e7eaa21791Cd364625"),
      ("entranceFee", .bigint 10000000000000000),
      ("gasLane", .string "0x474e34a077df58807dbe9c96d3c009b23b3c6d0cce433e59bbf5b34f823bc56c"),
      ("subscriptionId", .string "6926"),
      ("callbackGasLimit", .string "500000"), ("interval", .string "30")]
    (by decide) rfl rfl

/-- The task runs of a run that gets past the deploy of `Raffle`. -/
theorem raffleDeployer_runs (env : Env) (w : World) (deployer : Signer)
    (rest : List Signer) (sub : Subscription) (entry : JSObject) (raffle : DeployResult)
    (hsig : w.getSigners = .ok (deployer :: rest))
    (hres : (resolveSubscription env w fundAmount (some deployer)).result = .ok sub)
    (hcfg : env.chainConfig = some entry)
    (hdeploy : w.deploy "Raffle" ⟨deployer.address,
      constructorArgs sub.vrfCoordinatorV2Address sub.subscriptionId entry, true⟩ = .ok raffle) :
    (raffleDeployer env w).trace.filter Event.isRun =
      (if (!env.isDevelopment && envTruthy env.ETHERSCAN_API_KEY) = true
        then [.run "verify:verify" raffle.address
          (constructorArgs sub.vrfCoordinatorV2Address sub.subscriptionId entry)]
        else []) := by
  have hR : (resolveSubscription env w fundAmount (some deployer)).trace.filter Event.isRun
      = [] := by
    rw [List.filter_eq_nil_iff]
    intro e he
    simp [((resolveSubscription_trace env w fundAmount (some deployer)).1 e he).2.1]
  rw [raffleDeployer_trace_of_deploy_ok env w deployer rest sub entry raffle hsig hres hcfg
    hdeploy]
  simp [List.filter_cons, Event.isRun, hR, (finishDeployment_runs env w sub _ raffle).1]

/-- C6. Explorer verification is triggered exactly off the development chains with a key. In
a run that gets past the deploy of `Raffle` (the signers are returned, lines 22-59 complete,
the chain has a configuration entry and the deploy answers), the task `verify:verify` is run if
and only if `network.name` is not in `developmentChains` and `ETHERSCAN_API_KEY` is set to a
non-empty string; when it is run, it is run exactly once, with `address` the address of the
deployed `Raffle` and `constructorArguments` the argument list of the one deploy issued. -/
theorem raffleDeployer_verifies_iff (env : Env) (w : World) (deployer : Signer)
    (rest : List Signer) (sub : Subscription) (entry : JSObject) (raffle : DeployResult)
    (hcfg : env.networkConfig.lookup (propertyKey env.chainId) = some entry)
    (hsig : w.getSigners = .ok (deployer :: rest))
    (hres : (resolveSubscription env w (.bigint 20000000000000000000) (some deployer)).result
      = .ok sub)
    (hdeploy : w.deploy "Raffle"
      ⟨deployer.address,
        [sub.vrfCoordinatorV2Address, getProp entry "entranceFee", getProp entry "gasLane",
          sub.subscriptionId, getProp entry "callbackGasLimit", getProp entry "interval"],
        true⟩ = .ok raffle) :
    ((∃ e ∈ (raffleDeployer env w).trace, e.isRun = true) ↔
        (env.networkName ∉ env.developmentChains ∧
          ∃ key, env.ETHERSCAN_API_KEY = some key ∧ key ≠ "")) ∧
      ((∃ e ∈ (raffleDeployer env w).trace, e.isRun = true) →
        ∃ args,
          (raffleDeployer env w).trace.filter Event.isDeploy =
            [.deploy "Raffle" ⟨deployer.address, args, true⟩] ∧
          (raffleDeployer env w).trace.filter Event.isRun =
            [.run "verify:verify" raffle.address args]) := by
  have hruns := raffleDeployer_runs env w deployer rest sub entry raffle hsig hres hcfg hdeploy
  have hdeploys := raffleDeployer_deploys env w deployer rest sub entry hsig hres hcfg
  have hex : (∃ e ∈ (raffleDeployer env w).trace, e.isRun = true) ↔
      (raffleDeployer env w).trace.filter Event.isRun ≠ [] := by
    rw [Ne, List.filter_eq_nil_iff]
    push_neg
    rfl
  have hcond : (!env.isDevelopment && envTruthy env.ETHERSCAN_API_KEY) = true ↔
      (env.networkName ∉ env.developmentChains ∧
        ∃ key, env.ETHERSCAN_API_KEY = some key ∧ key ≠ "") := by
    rw [Bool.and_eq_true, envTruthy_iff, Bool.not_eq_true', isDevelopment_eq_false_iff]
  by_cases hc : (!env.isDevelopment && envTruthy env.ETHERSCAN_API_KEY) = true
  · rw [if_pos hc] at hruns
    refine ⟨?_, fun _ => ⟨_, hdeploys, hruns⟩⟩
    rw [hex, hruns, ← hcond]
    simp [hc]
  · rw [if_neg hc] at hruns
    refine ⟨?_, fun h => absurd hruns (hex.1 h)⟩
    rw [hex, hruns, ← hcond]
    simp [hc]

/-- C6, at the sample `sepolia` surroundings, where the key is set and the task is run. -/
theorem raffleDeployer_verifies_iff_witness :
    (∃ e ∈ (raffleDeployer sepoliaEnv sampleWorld).trace, e.isRun = true) ∧
      ∃ args,
        (raffleDeployer sepoliaEnv sampleWorld).trace.filter Event.isDeploy =
          [.deploy "Raffle" ⟨.string "0xf39Fd6e51aad88F6F4ce6aB8827279cffFb92266", args, true⟩] ∧
        (raffleDeployer sepoliaEnv sampleWorld).trace.filter Event.isRun =
          [.run "verify:verify" (.string "0xe7f1725E7734CE288F8367e1Bb143E90bb3F0512") args] :=
  have h := raffleDeployer_verifies_iff sepoliaEnv sampleWorld sampleDeployer
    [⟨.string "0x70997970C51812dc3A010C7d01b50e0d17dc79C8"⟩]
    ⟨.string "0x8103B0A8A00be2DDC778e6e7eaa21791Cd364625", .string "6926", none⟩
    [("name", .string "sepolia"),
      ("vrfCoordinatorV2", .string "0x8103B0A8A00be2DDC778e6e7eaa21791Cd364625"),
      ("entranceFee", .bigint 10000000000000000),
      ("gasLane", .string "0x474e34a077df58807dbe9c96d3c009b23b3c6d0cce433e59bbf5b34f823bc56c"),
      ("subscriptionId", .string "6926"),
      ("callbackGasLimit", .string "500000"), ("interval", .string "30")]
    sampleRaffle rfl rfl rfl rfl
  have hrun := h.1.2 ⟨by decide, "ABC123", rfl, by decide⟩
  ⟨hrun, h.2 hrun⟩

/-- C8. A failed verification does not stop the deployer. For every error with a string
message thrown by the task `verify:verify`, whatever the message says, `verify` completes
normally; and when the deployer triggers verification (the network is not a development chain,
the key is set, the chain has a configuration entry, the signers are returned and the deploy
answers) and the task throws such an error, the deployer still completes normally and the last
two lines of its trace are `log("Verified contract")` and the closing separator. -/
theorem verify_failure_does_not_stop_deployer :
    (∀ (w : World) (contractAddress : JSValue) (args : List JSValue) (err : JSError)
        (m : String),
        w.run "verify:verify" contractAddress args = .error err →
        err.message = .string m →
        (verify w contractAddress args).result = .ok ()) ∧
      (∀ (env : Env) (w : World) (deployer : Signer) (rest : List Signer) (entry : JSObject)
        (raffle : DeployResult) (err : JSError) (m : String),
        env.networkName ∉ env.developmentChains →
        (∃ key, env.ETHERSCAN_API_KEY = some key ∧ key ≠ "") →
        env.networkConfig.lookup (propertyKey env.chainId) = some entry →
        w.getSigners = .ok (deployer :: rest) →
        w.deploy "Raffle"
          ⟨deployer.address,
            [getProp entry "vrfCoordinatorV2", getProp entry "entranceFee",
              getProp entry "gasLane", getProp entry "subscriptionId",
              getProp entry "callbackGasLimit", getProp entry "interval"], true⟩ = .ok raffle →
        w.run "verify:verify" raffle.address
          [getProp entry "vrfCoordinatorV2", getProp entry "entranceFee",
            getProp entry "gasLane", getProp entry "subscriptionId",
            getProp entry "callbackGasLimit", getProp entry "interval"] = .error err →
        err.message = .string m →
        (raffleDeployer env w).result = .ok () ∧
          ∃ before, (raffleDeployer env w).trace =
            before ++ [.log (.lit "Verified contract"),
              .log (.lit "---------------------------------------------------------------")] ∧
            Event.run "verify:verify" raffle.address
              [getProp entry "vrfCoordinatorV2", getProp entry "entranceFee",
                getProp entry "gasLane", getProp entry "subscriptionId",
                getProp entry "callbackGasLimit", getProp entry "interval"] ∈ before) := by
  refine ⟨fun w a args err m hrun hmsg => ?_,
    fun env w deployer rest entry raffle err m hdev hkey hcfg hsig hdeploy hrun hmsg => ?_⟩
  · rw [verify_of_run_error w a args err m hrun hmsg]
  · have hd := (isDevelopment_eq_false_iff env).2 hdev
    have hk := (envTruthy_iff env.ETHERSCAN_API_KEY).2 hkey
    have hv := verify_of_run_error w raffle.address _ err m hrun hmsg
    have hf := finishDeployment_other_key env w
      ⟨getProp entry "vrfCoordinatorV2", getProp entry "subscriptionId", none⟩
      (constructorArgs (getProp entry "vrfCoordinatorV2") (getProp entry "subscriptionId") entry)
      raffle hd hk
    have hv2 : verify w raffle.address
        (constructorArgs (getProp entry "vrfCoordinatorV2") (getProp entry "subscriptionId")
          entry) = _ := hv
    rw [hv2] at hf
    rw [raffleDeployer_other_trace env w deployer rest entry raffle hd hcfg hsig hdeploy]
    refine ⟨hf.2, ?_⟩
    simp only [hf.1]
    refine ⟨[.getSigners, .deploy "Raffle" ⟨deployer.address,
        constructorArgs (getProp entry "vrfCoordinatorV2") (getProp entry "subscriptionId")
          entry, true⟩,
      announceLine raffle.address
        (constructorArgs (getProp entry "vrfCoordinatorV2") (getProp entry "subscriptionId")
          entry),
      verifyingLine raffle.address,
      .run "verify:verify" raffle.address
        (constructorArgs (getProp entry "vrfCoordinatorV2") (getProp entry "subscriptionId")
          entry),
      .consoleLog
        (if includes (toLowerCase w.lowerNonAscii m) "already verified" = true
          then .lit "Already verified" else .thrown err)], rfl, ?_⟩
    simp [constructorArgs]

/-- C8, at the sample `sepolia` surroundings with an explorer that fails outright. -/
theorem verify_failure_does_not_stop_deployer_witness :
    (verify failingExplorerWorld (.string "0xe7f1725E7734CE288F8367e1Bb143E90bb3F0512")
        []).result = .ok () ∧
      (raffleDeployer sepoliaEnv failingExplorerWorld).result = .ok () ∧
      ∃ before, (raffleDeployer sepoliaEnv failingExplorerWorld).trace =
        before ++ [.log (.lit "Verified contract"),
          .log (.lit "---------------------------------------------------------------")] ∧
        Event.run "verify:verify" (.string "0xe7f1725E7734CE288F8367e1Bb143E90bb3F0512")
          [.string "0x8103B0A8A00be2DDC778e6e7eaa21791Cd364625", .bigint 10000000000000000,
            .string "0x474e34a077df58807dbe9c96d3c009b23b3c6d0cce433e59bbf5b34f823bc56c",
            .string "6926", .string "500000", .string "30"] ∈ before :=
  ⟨verify_failure_does_not_stop_deployer.1 failingExplorerWorld
      (.string "0xe7f1725E7734CE288F8367e1Bb143E90bb3F0512") []
      ⟨"Error", .string "The Etherscan API responded with a failure status."⟩
      "The Etherscan API responded with a failure status." rfl rfl,
    verify_failure_does_not_stop_deployer.2 sepoliaEnv failingExplorerWorld sampleDeployer
      [⟨.string "0x70997970C51812dc3A010C7d01b50e0d17dc79C8"⟩]
      [("name", .string "sepolia"),
        ("vrfCoordinatorV2", .string "0x8103B0A8A00be2DDC778e6e7eaa21791Cd364625"),
        ("entranceFee", .bigint 10000000000000000),
        ("gasLane", .string "0x474e34a077df58807dbe9c96d3c009b23b3c6d0cce433e59bbf5b34f823bc56c"),
        ("subscriptionId", .string "6926"),
        ("callbackGasLimit", .string "500000"), ("interval", .string "30")]
      sampleRaffle ⟨"Error", .string "The Etherscan API responded with a failure status."⟩
      "The Etherscan API responded with a failure status."
      (by decide) ⟨"ABC123", rfl, by decide⟩ rfl rfl rfl rfl rfl⟩

/-- C9, refuted as stated. On the sample public network whose chain id has no configuration
entry the deployer fails, but not before any call at all: `ethers.getSigners()` of line 12 has
been called. -/
theorem raffleDeployer_missing_entry_calls_getSigners :
    unlistedEnv.networkName ∉ unlistedEnv.developmentChains ∧
      unlistedEnv.networkConfig.lookup (propertyKey unlistedEnv.chainId) = none ∧
      (raffleDeployer unlistedEnv sampleWorld).result
        = .error (typeError "Cannot read properties of undefined") ∧
      (raffleDeployer unlistedEnv sampleWorld).trace = [Event.getSigners] ∧
      (raffleDeployer unlistedEnv sampleWorld).trace ≠ [] :=
  ⟨by decide, rfl, rfl, by decide, by decide⟩

/-- C9, amended. If `networkConfig` has no entry for the chain id, the deployer fails with an
error and issues no deploy, no `addConsumer` and no task run, whatever the answers. On a
network that is not a development chain it fails having called only `ethers.getSigners()`. On
a development chain whose calls all answer it fails after the subscription has been created
and funded: the trace is `getSigners`, `deployments.get`, `getContractAt`, `getAddress()`,
`createSubscription()`, `wait(1)` and `fundSubscription(subId, 20000000000000000000)`. -/
theorem raffleDeployer_missing_entry (env : Env) (w : World)
    (hcfg : env.networkConfig.lookup (propertyKey env.chainId) = none) :
    (∃ err, (raffleDeployer env w).result = .error err) ∧
      (∀ e ∈ (raffleDeployer env w).trace,
        e.isDeploy = false ∧ e.isContractCall "addConsumer" = false ∧ e.isRun = false) ∧
      (env.networkName ∉ env.developmentChains →
        (raffleDeployer env w).trace = [.getSigners]) ∧
      (env.networkName ∈ env.developmentChains →
        ∀ (deployer : Signer) (rest : List Signer) (dep : Deployment)
          (mock : CoordinatorContract) (addr : JSValue) (tx : TransactionResponse)
          (receipt : TransactionReceipt) (log0 : ReceiptLog) (logs : List ReceiptLog)
          (logArgs : JSObject),
          w.getSigners = .ok (deployer :: rest) →
          w.deploymentsGet "VRFCoordinatorV2Mock" = .ok dep →
          w.getContractAt dep.abi dep.address (some deployer) = .ok mock →
          mock.getAddress = .ok addr →
          mock.createSubscription = .ok tx →
          tx.wait 1 = .ok receipt →
          receipt.logs = log0 :: logs →
          log0.args = some logArgs →
          mock.fundSubscription (getProp logArgs "subId") (.bigint 20000000000000000000)
            = .ok () →
          (raffleDeployer env w).trace =
            [.getSigners, .deploymentsGet "VRFCoordinatorV2Mock",
              .getContractAt dep.abi dep.address (some deployer),
              .contractCall "getAddress" [], .contractCall "createSubscription" [], .txWait 1,
              .contractCall "fundSubscription"
                [getProp logArgs "subId", .bigint 20000000000000000000]]) := by
  obtain ⟨herr, htrace⟩ := raffleDeployer_missing_config env w hcfg
  refine ⟨herr, ?_, fun hdev => ?_, fun hdev deployer rest dep mock addr tx receipt log0 logs
    logArgs hsig hget hat haddr hcreate hwait hlogs hargs hfund => ?_⟩
  · intro e he
    rw [htrace] at he
    cases hsig : w.getSigners with
    | error err =>
      simp only [hsig, List.mem_singleton] at he
      subst he
      exact ⟨rfl, rfl, rfl⟩
    | ok signers =>
      simp only [hsig, List.mem_cons] at he
      rcases he with rfl | he
      · exact ⟨rfl, rfl, rfl⟩
      · have h := (resolveSubscription_trace env w fundAmount signers.head?).1 e he
        exact ⟨h.1, h.2.2.2, h.2.1⟩
  · rw [htrace]
    have hd := (isDevelopment_eq_false_iff env).2 hdev
    cases hsig : w.getSigners with
    | error err => rfl
    | ok signers =>
      simp only
      rw [(resolveSubscription_trace env w fundAmount signers.head?).2 hd]
  · rw [htrace, hsig]
    simp only [List.head?_cons]
    rw [resolveSubscription_development env w fundAmount (some deployer) dep mock addr tx
      receipt log0 logs logArgs ((isDevelopment_iff env).2 hdev) hget hat haddr hcreate hwait
      hlogs hargs hfund]
    rfl

/-- C9 amended, at the sample surroundings without a configuration entry: the public network
stops after `getSigners`, the local one after the subscription 1 has been funded. -/
theorem raffleDeployer_missing_entry_witness :
    (raffleDeployer unlistedEnv sampleWorld).trace = [.getSigners] ∧
      (raffleDeployer unlistedLocalEnv sampleWorld).trace =
        [.getSigners, .deploymentsGet "VRFCoordinatorV2Mock",
          .getContractAt "VRFCoordinatorV2Mock.abi"
            (.string "0x5FbDB2315678afecb367f032d93F642f64180aa3") (some sampleDeployer),
          .contractCall "getAddress" [], .contractCall "createSubscription" [], .txWait 1,
          .contractCall "fundSubscription" [.bigint 1, .bigint 20000000000000000000]] :=
  ⟨(raffleDeployer_missing_entry unlistedEnv sampleWorld rfl).2.2.1 (by decide),
    (raffleDeployer_missing_entry unlistedLocalEnv sampleWorld rfl).2.2.2 (by decide)
      sampleDeployer [⟨.string "0x70997970C51812dc3A010C7d01b50e0d17dc79C8"⟩]
      sampleMockDeployment sampleMock (.string "0x5FbDB2315678afecb367f032d93F642f64180aa3")
      sampleTransaction sampleReceipt ⟨some sampleLogArgs⟩ [] sampleLogArgs
      rfl rfl rfl rfl rfl rfl rfl rfl rfl⟩

/-- C5, at the sample `hardhat` surroundings. -/
theorem mockDeployer_deploys_iff_development_witness :
    (mockDeployer hardhatEnv sampleWorld).trace.filter Event.isDeploy =
      [.deploy "VRFCoordinatorV2Mock"
        ⟨.string "0xf39Fd6e51aad88F6F4ce6aB8827279cffFb92266",
          [.bigint 250000000000000000, .number 1000000000], true⟩] ∧
      ∀ e ∈ (mockDeployer sepoliaEnv sampleWorld).trace, e.isDeploy = false ∧ e.isLog = false :=
  ⟨(mockDeployer_deploys_iff_development hardhatEnv sampleWorld
      [("deployer", .string "0xf39Fd6e51aad88F6F4ce6aB8827279cffFb92266"),
        ("player", .string "0x70997970C51812dc3A010C7d01b50e0d17dc79C8")] rfl).2.1 (by decide),
    (mockDeployer_deploys_iff_development sepoliaEnv sampleWorld
      [("deployer", .string "0xf39Fd6e51aad88F6F4ce6aB8827279cffFb92266"),
        ("player", .string "0x70997970C51812dc3A010C7d01b50e0d17dc79C8")] rfl).2.2 (by decide)⟩

/-- C7, at the sample explorer answer "Contract source code ALREADY Verified". -/
theorem verify_swallows_already_verified_witness :
    (verify sampleWorld (.string "0xe7f1725E7734CE288F8367e1Bb143E90bb3F0512") []).result
        = .ok () ∧
      (verify sampleWorld (.string "0xe7f1725E7734CE288F8367e1Bb143E90bb3F0512") []).trace =
        [.consoleLog (.template ["Verifying contract : ", ""]
            [.value (.string "0xe7f1725E7734CE288F8367e1Bb143E90bb3F0512")]),
          .run "verify:verify" (.string "0xe7f1725E7734CE288F8367e1Bb143E90bb3F0512") [],
          .consoleLog (.lit "Already verified")] :=
  verify_swallows_already_verified sampleWorld
    (.string "0xe7f1725E7734CE288F8367e1Bb143E90bb3F0512") []
    ⟨"NomicLabsHardhatPluginError", .string "Contract source code ALREADY Verified"⟩
    "Contract source code ALREADY Verified" "Contract source code ".data
    "ALREADY Verified".data [] rfl rfl (by decide) (by decide)

/-! ## test/unit/Raffle.test.js: the amounts given to `evm_increaseTime` -/

theorem digitChar_toNat {k : Nat} (h : k < 10) :
    (Nat.digitChar k).toNat - 48 = k ∧ (Nat.digitChar k).isDigit = true := by
  interval_cases k <;> exact ⟨rfl, rfl⟩

/-- Reading the digits written for `n`, then `ds`, is reading `ds` from the value `n`. -/
theorem foldl_toDigitsCore (fuel : Nat) :
    ∀ (n : Nat) (ds : List Char), n < fuel →
      (Nat.toDigitsCore 10 fuel n ds).foldl (fun acc c => 10 * acc + (c.toNat - 48)) 0
        = ds.foldl (fun acc c => 10 * acc + (c.toNat - 48)) n := by
  induction fuel with
  | zero => intro n ds h; omega
  | succ fuel ih =>
    intro n ds h
    have hd := (digitChar_toNat (Nat.mod_lt n (by decide : 0 < 10))).1
    simp only [Nat.toDigitsCore]
    split
    · rename_i h0
      have hn : n % 10 = n := by omega
      rw [hn] at hd
      simp only [List.foldl_cons, Nat.mul_zero, Nat.zero_add, hn, hd]
    · rename_i h0
      rw [ih (n / 10) _ (by omega)]
      simp only [List.foldl_cons, hd]
      congr 1
      omega

theorem all_isDigit_toDigitsCore (fuel : Nat) :
    ∀ (n : Nat) (ds : List Char), ds.all Char.isDigit = true →
      (Nat.toDigitsCore 10 fuel n ds).all Char.isDigit = true := by
  induction fuel with
  | zero => intro n ds h; simpa [Nat.toDigitsCore] using h
  | succ fuel ih =>
    intro n ds h
    have hd := (digitChar_toNat (Nat.mod_lt n (by decide : 0 < 10))).2
    simp only [Nat.toDigitsCore]
    split
    · simp only [List.all_cons, hd, h, Bool.and_self]
    · exact ih _ _ (by simp only [List.all_cons, hd, h, Bool.and_self])

/-- The decimal string of `n` reads back as `n`. -/
theorem digitsValue_bigintToString (n : Nat) : digitsValue (bigintToString n).data = n := by
  have h := foldl_toDigitsCore (n + 1) n [] (Nat.lt_succ_self n)
  simpa [digitsValue, bigintToString, Nat.repr, Nat.toDigits, List.asString] using h

theorem bigintToString_all_isDigit (n : Nat) :
    (bigintToString n).data.all Char.isDigit = true := by
  have h := all_isDigit_toDigitsCore (n + 1) n [] rfl
  simpa [bigintToString, Nat.repr, Nat.toDigits, List.asString] using h

/-- Converting the decimal string of `n` to Number gives the Number value of `n`. -/
theorem stringToNumber_bigintToString (n : Nat) :
    stringToNumber (bigintToString n) = integerToNumber n := by
  simp [stringToNumber, bigintToString_all_isDigit, digitsValue_bigintToString]

/-- Integers up to `2 ^ 53` are doubles. -/
theorem roundToDouble_of_le {n : Nat} (h : n ≤ 2 ^ 53) : roundToDouble n = n := by
  rcases Nat.lt_or_ge n (2 ^ 53) with hlt | hge
  · have he : ulpExp 1024 n = 0 := by
      show (if n < 2 ^ 53 then 0 else 1 + ulpExp 1023 (n / 2)) = 0
      rw [if_pos hlt]
    simp [roundToDouble, he, Nat.mod_one]
  · have hn : n = 2 ^ 53 := Nat.le_antisymm h hge
    subst hn
    decide

theorem integerToNumber_of_le {z : Int} (h : z.natAbs ≤ 2 ^ 53) :
    integerToNumber z = some z := by
  have hbig : (2 : Nat) ^ 53 < 2 ^ 1024 - 2 ^ 970 := by norm_num
  have hlt : z.natAbs < 2 ^ 1024 - 2 ^ 970 := Nat.lt_of_le_of_lt h hbig
  simp only [integerToNumber, if_pos hlt, roundToDouble_of_le h]
  rw [Int.sign_mul_natAbs]

/-- C10, refuted as stated. At the interval `2 ^ 60 = 1152921504606846976` the amount
`interval.toString() - 30` is the interval itself: the difference is rounded to the nearest
double. It is neither `interval - 30` nor strictly less than the interval. -/
theorem increaseTimeShort_at_large_interval :
    increaseTimeShort 1152921504606846976 = some 1152921504606846976 ∧
      increaseTimeShort 1152921504606846976 ≠ some ((1152921504606846976 : Int) - 30) ∧
      ¬ ∃ amount : Int, increaseTimeShort 1152921504606846976 = some amount ∧
          amount < 1152921504606846976 := by
  have hbig : (1152921504606846976 : Nat) < 2 ^ 1024 - 2 ^ 970 := by norm_num
  have hbig2 : (1152921504606846946 : Nat) < 2 ^ 1024 - 2 ^ 970 := by norm_num
  have hr1 : roundToDouble 1152921504606846976 = 1152921504606846976 := by decide
  have hr2 : roundToDouble 1152921504606846946 = 1152921504606846976 := by decide
  have h1 : integerToNumber (1152921504606846976 : Nat) = some 1152921504606846976 := by
    have : ((1152921504606846976 : Nat) : Int).natAbs = 1152921504606846976 := rfl
    simp only [integerToNumber, this, if_pos hbig, hr1]
    rfl
  have h2 : integerToNumber ((1152921504606846976 : Int) - 30) = some 1152921504606846976 := by
    have : ((1152921504606846976 : Int) - 30).natAbs = 1152921504606846946 := rfl
    simp only [integerToNumber, this, if_pos hbig2, hr2]
    rfl
  have h : increaseTimeShort 1152921504606846976 = some 1152921504606846976 := by
    have hs := stringToNumber_bigintToString 1152921504606846976
    simp only [increaseTimeShort, hs, h1, Option.some_bind, numberSub]
    exact h2
  refine ⟨h, ?_, ?_⟩
  · rw [h]
    decide
  · rintro ⟨amount, ha, hlt⟩
    rw [h] at ha
    cases ha
    exact absurd hlt (by decide)

/-- C10, amended. For every interval, the amount `interval.toString() + 1` is the decimal
string of the interval with the digit 1 appended: it is a string of digits whose value is
`10 * interval + 1`, strictly greater than the interval. For every interval up to `2 ^ 53`,
the amount `interval.toString() - 30` is the Number `interval - 30`, strictly less than the
interval. -/
theorem increaseTime_amounts (interval : Nat) :
    ((increaseTimePast interval).data = (bigintToString interval).data ++ ['1'] ∧
        (increaseTimePast interval).data.all Char.isDigit = true ∧
        digitsValue (increaseTimePast interval).data = 10 * interval + 1 ∧
        interval < digitsValue (increaseTimePast interval).data) ∧
      (interval ≤ 2 ^ 53 →
        increaseTimeShort interval = some ((interval : Int) - 30) ∧
          (interval : Int) - 30 < interval) := by
  have hdata : (increaseTimePast interval).data = (bigintToString interval).data ++ ['1'] := by
    simp [increaseTimePast]
  have hval : digitsValue (increaseTimePast interval).data = 10 * interval + 1 := by
    have h := digitsValue_bigintToString interval
    unfold digitsValue at h ⊢
    rw [hdata, List.foldl_append, h]
    rfl
  refine ⟨⟨hdata, ?_, hval, by omega⟩, fun hle => ⟨?_, by omega⟩⟩
  · rw [hdata, List.all_append, bigintToString_all_isDigit]
    rfl
  · have hs := stringToNumber_bigintToString interval
    have h1 : integerToNumber (interval : Int) = some (interval : Int) :=
      integerToNumber_of_le (by simpa using hle)
    simp only [increaseTimeShort, hs, h1, Option.some_bind, numberSub]
    exact integerToNumber_of_le (by omega)

/-- C10 amended, at the interval 30 of the sample configuration: the amounts are "301" and 0. -/
theorem increaseTime_amounts_witness :
    digitsValue (increaseTimePast 30).data = 10 * 30 + 1 ∧
      increaseTimeShort 30 = some ((30 : Int) - 30) :=
  ⟨(increaseTime_amounts 30).1.2.2.1, ((increaseTime_amounts 30).2 (by norm_num)).1⟩

/-! ## The suite guards of the two test files -/

/-- On a development chain the unit file calls `describe` and the staging file does not. -/
theorem testFiles_development (env : Env) (h : env.isDevelopment = true) :
    unitTestFile env = .describeCall unitSuite ∧ stagingTestFile env = .describeSkip := by
  simp [unitTestFile, stagingTestFile, h]

/-- Off the development chains the staging file calls `describe` and the unit file does not. -/
theorem testFiles_other (env : Env) (h : env.isDevelopment = false) :
    unitTestFile env = .describeSkip ∧ stagingTestFile env = .describeCall stagingSuite := by
  simp [unitTestFile, stagingTestFile, h]

/-- C11. Exactly one of the two "Raffle" suites is registered. For every network name and
every `developmentChains` list, loading both test files registers exactly one suite; the unit
file registers its suite if and only if `network.name` is in `developmentChains` and registers
nothing otherwise; the staging file registers its suite if and only if `network.name` is not
in `developmentChains` and registers nothing otherwise. Both suites are titled "Raffle". -/
theorem exactly_one_raffle_suite_registered (env : Env) :
    ((unitTestFile env).registered ++ (stagingTestFile env).registered).length = 1 ∧
      ((unitTestFile env).registered = [unitSuite] ↔
        env.networkName ∈ env.developmentChains) ∧
      ((unitTestFile env).registered = [] ↔ env.networkName ∉ env.developmentChains) ∧
      ((stagingTestFile env).registered = [stagingSuite] ↔
        env.networkName ∉ env.developmentChains) ∧
      ((stagingTestFile env).registered = [] ↔ env.networkName ∈ env.developmentChains) ∧
      unitSuite.title = "Raffle" ∧ stagingSuite.title = "Raffle" := by
  cases hdev : env.isDevelopment with
  | true =>
    have hin : env.networkName ∈ env.developmentChains := (isDevelopment_iff env).1 hdev
    obtain ⟨hu, hs⟩ := testFiles_development env hdev
    rw [hu, hs]
    simp [SuiteExpr.registered, hin, unitSuite, stagingSuite]
  | false =>
    have hnot : env.networkName ∉ env.developmentChains :=
      (isDevelopment_eq_false_iff env).1 hdev
    obtain ⟨hu, hs⟩ := testFiles_other env hdev
    rw [hu, hs]
    simp [SuiteExpr.registered, hnot, unitSuite, stagingSuite]

end HardhatRaffle
